import Mathlib

/-!
# logcoe: a shallow embedding of the logger state machine

The development follows `src/logcoe.cpp`.  The static members of `LoggerImpl`
become the fields of `LoggerState`; every member function becomes a function on
that state.  What the C++ standard library and the operating system provide is
made explicit:

* an output stream is a pair of strings, the characters already delivered to
  the device and the characters still waiting in the stream buffer;
* the file system is a map from paths to file contents;
* the wall clock, `strftime` and the success of opening a path are read from an
  `Env` that is passed to every operation.

Every public operation of the C++ code holds `s_mutex` for its whole body, so
an operation is one atomic step here.  I/O on an open stream is assumed not to
fail, and the error flags of `s_fileStream` are not tracked: inserting into a
stream that has no open file delivers nothing.
-/

namespace Logcoe

/-! ## Data model -/

/-- The enumeration `logcoe::LogLevel` of `logcoe.hpp`, in declaration order. -/
inductive LogLevel where
  | DEBUG
  | INFO
  | WARNING
  | ERROR
  | NONE
  deriving DecidableEq, Repr

/-- The value of `static_cast<int>(level)`. -/
def LogLevel.toInt : LogLevel → Int
  | .DEBUG => 0
  | .INFO => 1
  | .WARNING => 2
  | .ERROR => 3
  | .NONE => 4

/-- A `std::ostream` owned by the caller: `delivered` holds the characters that
have reached the device, `pending` the characters still in the buffer. -/
structure OStream where
  delivered : String
  pending : String
  deriving DecidableEq, Repr

/-- The insertion `stream << s`. -/
def OStream.put (o : OStream) (s : String) : OStream :=
  { o with pending := o.pending ++ s }

/-- The call `stream.flush()`. -/
def OStream.flush (o : OStream) : OStream :=
  { delivered := o.delivered ++ o.pending, pending := "" }

/-- The manipulator `std::endl`: a newline followed by a flush. -/
def OStream.endl (o : OStream) : OStream :=
  (o.put "\n").flush

/-- Every character written to the stream so far, delivered or not. -/
def OStream.content (o : OStream) : String :=
  o.delivered ++ o.pending

/-- The `std::ofstream` held in `s_fileStream`: whether a file is open, the
path it was opened on, and the characters not yet written to that file. -/
structure OFStream where
  isOpen : Bool
  path : String
  pending : String
  deriving DecidableEq, Repr

/-- The file system: the content of the file at each path, if it exists. -/
abbrev Disk := String → Option String

/-- Append `s` to the file at `p`; a path with no file stays without one. -/
def Disk.append (d : Disk) (p s : String) : Disk :=
  fun q => if q = p then (d q).map (fun c => c ++ s) else d q

/-- Create the file at `p`, or cut it to length zero when it exists. -/
def Disk.truncate (d : Disk) (p : String) : Disk :=
  fun q => if q = p then some "" else d q

/-- What an operation reads from outside the logger at the moment it runs:
the clock, what `std::strftime` does with a non-empty pattern (its return value
and the C string it leaves in the buffer) and whether opening a path for
writing succeeds. -/
structure Env where
  now : Nat
  format : String → Nat → Nat × String
  canOpen : String → Bool

/-- The call `std::strftime(buffer, sizeof(buffer), format.c_str(), &tm_now)` on
the current local time: the returned count and the string left in `buffer`.
The empty pattern writes no character and returns `0`. -/
def strftime (env : Env) (format : String) : Nat × String :=
  if format = "" then (0, "") else env.format format env.now

/-- The static members of `LoggerImpl` (without `s_mutex`), the streams a
console pointer can refer to, and the file system.  Stream `0` is `std::cout`;
`s_consoleStream = none` is the null pointer. -/
structure LoggerState where
  s_logLevel : LogLevel
  s_filename : String
  s_fileStream : OFStream
  s_consoleStream : Option Nat
  s_useFile : Bool
  s_useConsole : Bool
  s_timeFormat : String
  streams : Nat → OStream
  disk : Disk

/-- The identifier of `std::cout`. -/
def cout : Nat := 0

/-- The state given by the static initialisers of `logcoe.cpp`, over the
streams and files of the process. -/
def initialState (streams : Nat → OStream) (disk : Disk) : LoggerState :=
  { s_logLevel := .INFO
    s_filename := "logcoe.log"
    s_fileStream := { isOpen := false, path := "", pending := "" }
    s_consoleStream := some cout
    s_useFile := false
    s_useConsole := true
    s_timeFormat := "%Y-%m-%d_%H-%M-%S"
    streams := streams
    disk := disk }

/-! ## Stream primitives on the state -/

/-- Apply `f` to the stream with identifier `id`. -/
def onStream (st : LoggerState) (id : Nat) (f : OStream → OStream) : LoggerState :=
  { st with streams := fun j => if j = id then f (st.streams j) else st.streams j }

/-- The statement `s_consoleStream->flush()`; nothing happens on a null pointer. -/
def consoleFlush (st : LoggerState) : LoggerState :=
  match st.s_consoleStream with
  | some id => onStream st id OStream.flush
  | none => st

/-- The statement `*s_consoleStream << s << std::endl`. -/
def consoleWriteLine (st : LoggerState) (s : String) : LoggerState :=
  match st.s_consoleStream with
  | some id => onStream st id (fun o => (o.put s).endl)
  | none => st

/-- The call `s_fileStream.is_open()`. -/
def fileIsOpen (st : LoggerState) : Bool :=
  st.s_fileStream.isOpen

/-- The insertion `s_fileStream << s`: buffered when a file is open. -/
def filePut (st : LoggerState) (s : String) : LoggerState :=
  if st.s_fileStream.isOpen then
    { st with s_fileStream := { st.s_fileStream with pending := st.s_fileStream.pending ++ s } }
  else st

/-- The call `s_fileStream.flush()`: the buffer goes to the open file. -/
def fileFlush (st : LoggerState) : LoggerState :=
  if st.s_fileStream.isOpen then
    { st with
      s_fileStream := { st.s_fileStream with pending := "" }
      disk := st.disk.append st.s_fileStream.path st.s_fileStream.pending }
  else st

/-- The statement `s_fileStream << s << std::endl`. -/
def fileWriteLine (st : LoggerState) (s : String) : LoggerState :=
  fileFlush (filePut (filePut st s) "\n")

/-- The call `s_fileStream.close()`: the buffer is written out and the file
is released. -/
def fileClose (st : LoggerState) : LoggerState :=
  if st.s_fileStream.isOpen then
    let st1 := fileFlush st
    { st1 with s_fileStream := { st1.s_fileStream with isOpen := false } }
  else st

/-- The call `s_fileStream.open(p)`: it fails on a stream that is already open
and on a path that cannot be opened; on success the file is created empty. -/
def fileOpen (env : Env) (st : LoggerState) (p : String) : LoggerState :=
  if st.s_fileStream.isOpen then st
  else if env.canOpen p then
    { st with
      s_fileStream := { isOpen := true, path := p, pending := "" }
      disk := st.disk.truncate p }
  else st

/-! ## The member functions of `LoggerImpl` -/

/-- The function `LoggerImpl::getCurrentTimestamp`: the buffer `strftime` fills for
`s_timeFormat` at the current time. -/
def getCurrentTimestamp (env : Env) (st : LoggerState) : String :=
  (strftime env st.s_timeFormat).2

/-- The function `LoggerImpl::getLogLevelAsString`. -/
def getLogLevelAsString : LogLevel → String
  | .DEBUG => "DEBUG"
  | .INFO => "INFO"
  | .WARNING => "WARNING"
  | .ERROR => "ERROR"
  | _ => "NONE"

/-- The function `LoggerImpl::writeToOutputs`.  The C++ default arguments `level = INFO`
and `flush = true` are passed explicitly by the callers below. -/
def writeToOutputs (st : LoggerState) (formattedMessage : String) (level : LogLevel)
    (flush : Bool) : LoggerState :=
  if level.toInt < st.s_logLevel.toInt then st
  else
    let st1 :=
      if st.s_useConsole && st.s_consoleStream.isSome then
        let c := consoleWriteLine st formattedMessage
        if flush then consoleFlush c else c
      else st
    if st1.s_useFile then
      let f := fileWriteLine st1 formattedMessage
      if flush then fileFlush f else f
    else st1

/-- The text `LoggerImpl::log` builds in its `stringstream`. -/
def formatMessage (env : Env) (st : LoggerState) (level : LogLevel) (message source : String) :
    String :=
  let s0 := ""
  let s1 := s0 ++ "[" ++ getCurrentTimestamp env st ++ "] "
  let s2 := s1 ++ "[" ++ getLogLevelAsString level ++ "]"
  let s3 := if ¬ source = "" then s2 ++ " [" ++ source ++ "]" else s2
  s3 ++ ": " ++ message

/-- The function `LoggerImpl::log`. -/
def log (env : Env) (st : LoggerState) (level : LogLevel) (message source : String)
    (flush : Bool) : LoggerState :=
  writeToOutputs st (formatMessage env st level message source) level flush

/-- The function `LoggerImpl::debug`. -/
def debug (env : Env) (st : LoggerState) (message source : String) (flush : Bool) :
    LoggerState :=
  log env st .DEBUG message source flush

/-- The function `LoggerImpl::info`. -/
def info (env : Env) (st : LoggerState) (message source : String) (flush : Bool) :
    LoggerState :=
  log env st .INFO message source flush

/-- The function `LoggerImpl::warning`. -/
def warning (env : Env) (st : LoggerState) (message source : String) (flush : Bool) :
    LoggerState :=
  log env st .WARNING message source flush

/-- The function `LoggerImpl::error`. -/
def error (env : Env) (st : LoggerState) (message source : String) (flush : Bool) :
    LoggerState :=
  log env st .ERROR message source flush

/-- The function `LoggerImpl::flush`. -/
def flush (st : LoggerState) : LoggerState :=
  let st1 := if st.s_useConsole && st.s_consoleStream.isSome then consoleFlush st else st
  if st1.s_useFile && fileIsOpen st1 then fileFlush st1 else st1

/-- The function `LoggerImpl::initialize`; that word is reserved, hence the
spelling of the name. -/
def initialise (env : Env) (st : LoggerState) (level : LogLevel) (enableConsole enableFile : Bool)
    (filename : String) : LoggerState :=
  let st := { st with s_logLevel := level }
  let st := { st with s_useConsole := enableConsole }
  let st :=
    if st.s_useConsole && !st.s_consoleStream.isSome then { st with s_consoleStream := some cout }
    else st
  let st := { st with s_useFile := enableFile }
  let st := if filename ≠ st.s_filename then { st with s_filename := filename } else st
  let st :=
    if st.s_filename = "logcoe.log" then
      { st with s_filename := "logcoe_" ++ getCurrentTimestamp env st ++ ".log" }
    else st
  let st :=
    if st.s_useFile && !(filename = "") then
      let st := if fileIsOpen st then fileClose st else st
      let st := fileOpen env st st.s_filename
      if !fileIsOpen st then
        let st := writeToOutputs st ("ERROR: Failed to open log file: " ++ st.s_filename) .INFO true
        { st with s_useFile := false }
      else st
    else st
  writeToOutputs st ("Logger initialized with level: " ++ getLogLevelAsString st.s_logLevel)
    .INFO true

/-- The function `LoggerImpl::shutdown`. -/
def shutdown (st : LoggerState) : LoggerState :=
  let shutdownMessage := "Logger shutting down"
  let st := writeToOutputs st shutdownMessage .INFO true
  let st := flush st
  let st := if fileIsOpen st then fileClose st else st
  let st := { st with s_consoleStream := none }
  let st := { st with s_useConsole := false }
  let st := { st with s_useFile := false }
  let st := { st with s_logLevel := .NONE }
  { st with s_filename := "logcoe.log" }

/-- The function `LoggerImpl::setLogLevel`. -/
def setLogLevel (st : LoggerState) (level : LogLevel) : LoggerState :=
  { st with s_logLevel := level }

/-- The function `LoggerImpl::setConsoleOutput`; the reference argument is the identifier
of the stream. -/
def setConsoleOutput (st : LoggerState) (stream : Nat) : LoggerState :=
  let st := if st.s_useConsole && st.s_consoleStream.isSome then consoleFlush st else st
  let st := { st with s_consoleStream := some stream }
  { st with s_useConsole := true }

/-- The function `LoggerImpl::setFileOutput`: the returned flag and the new state. -/
def setFileOutput (env : Env) (st : LoggerState) (filename : String) : Bool × LoggerState :=
  let st :=
    if fileIsOpen st then
      let st := if st.s_useFile then fileFlush st else st
      fileClose st
    else st
  let st :=
    { st with
      s_filename := if filename = "" then "logcoe_" ++ getCurrentTimestamp env st ++ ".log"
        else filename }
  let st := { st with s_useFile := true }
  let st := fileOpen env st st.s_filename
  let st :=
    if !fileIsOpen st then
      let st := writeToOutputs st ("ERROR: Failed to open log file: " ++ st.s_filename) .INFO true
      { st with s_useFile := false }
    else st
  (st.s_useFile, st)

/-- The function `LoggerImpl::disableConsoleOutput`. -/
def disableConsoleOutput (st : LoggerState) : LoggerState :=
  let st := if st.s_useConsole && st.s_consoleStream.isSome then consoleFlush st else st
  let st := { st with s_consoleStream := none }
  { st with s_useConsole := false }

/-- The function `LoggerImpl::disableFileOutput`. -/
def disableFileOutput (st : LoggerState) : LoggerState :=
  let st :=
    if fileIsOpen st then
      let st := if st.s_useFile then fileFlush st else st
      fileClose st
    else st
  let st := { st with s_filename := "logcoe.log" }
  { st with s_useFile := false }

/-- The function `LoggerImpl::setTimeFormat`.  None of the calls in the `try` block throws
in this model, so the `catch` branch is not taken. -/
def setTimeFormat (env : Env) (st : LoggerState) (format : String) : LoggerState :=
  let result := (strftime env format).1
  if result = 0 then
    writeToOutputs st
      ("ERROR: Invalid time format provided: \"" ++ format ++ "\". Keeping the current format")
      .INFO true
  else { st with s_timeFormat := format }

/-- The function `LoggerImpl::getLogLevel`. -/
def getLogLevel (st : LoggerState) : LogLevel :=
  st.s_logLevel

/-! ## Sequences of public operations -/

/-- A call of one of the functions of namespace `logcoe`. -/
inductive Op where
  | initialise (level : LogLevel) (enableConsole enableFile : Bool) (filename : String)
  | shutdown
  | setLogLevel (level : LogLevel)
  | setConsoleOutput (stream : Nat)
  | setFileOutput (filename : String)
  | disableConsoleOutput
  | disableFileOutput
  | setTimeFormat (format : String)
  | getLogLevel
  | debug (message source : String) (flush : Bool)
  | info (message source : String) (flush : Bool)
  | warning (message source : String) (flush : Bool)
  | error (message source : String) (flush : Bool)
  | flush

/-- The state after one public call. -/
def step (env : Env) (st : LoggerState) : Op → LoggerState
  | .initialise level enableConsole enableFile filename =>
      initialise env st level enableConsole enableFile filename
  | .shutdown => shutdown st
  | .setLogLevel level => setLogLevel st level
  | .setConsoleOutput stream => setConsoleOutput st stream
  | .setFileOutput filename => (setFileOutput env st filename).2
  | .disableConsoleOutput => disableConsoleOutput st
  | .disableFileOutput => disableFileOutput st
  | .setTimeFormat format => setTimeFormat env st format
  | .getLogLevel => st
  | .debug message source fl => debug env st message source fl
  | .info message source fl => info env st message source fl
  | .warning message source fl => warning env st message source fl
  | .error message source fl => error env st message source fl
  | .flush => flush st

/-- The state after a list of calls, each with the environment it runs in. -/
def run (st : LoggerState) : List (Env × Op) → LoggerState
  | [] => st
  | (env, op) :: rest => run (step env st op) rest

/-- The states a process can be in: the initial state, and every state one
public call away from a reachable state, whatever the environment does. -/
inductive Reachable : LoggerState → Prop where
  | start (streams : Nat → OStream) (disk : Disk) : Reachable (initialState streams disk)
  | call {st : LoggerState} (env : Env) (op : Op) (h : Reachable st) : Reachable (step env st op)

/-! ## What an observer sees -/

/-- All characters written so far to the stream `id`. -/
def consoleContent (st : LoggerState) (id : Nat) : String :=
  (st.streams id).content

/-- All characters written so far to the file at `p`, those still in the
buffer of `s_fileStream` included; `none` when there is no such file. -/
def fileContent (st : LoggerState) (p : String) : Option String :=
  (st.disk p).map fun c =>
    if st.s_fileStream.isOpen && st.s_fileStream.path = p then c ++ st.s_fileStream.pending
    else c

/-- The console sink is active on stream `id`: the test of `writeToOutputs`. -/
def ConsoleActive (st : LoggerState) (id : Nat) : Prop :=
  st.s_useConsole = true ∧ st.s_consoleStream = some id

/-- The file sink is active on the file at `p`: `s_useFile` is set and
`s_fileStream` is open on `p`. -/
def FileActive (st : LoggerState) (p : String) : Prop :=
  st.s_useFile = true ∧ st.s_fileStream.isOpen = true ∧ st.s_fileStream.path = p

instance (st : LoggerState) (id : Nat) : Decidable (ConsoleActive st id) := by
  unfold ConsoleActive
  infer_instance

instance (st : LoggerState) (p : String) : Decidable (FileActive st p) := by
  unfold FileActive
  infer_instance

/-! ## The phases of `initialize` -/

/-- The file name `initialize` settles on (lines 142-146 of `logcoe.cpp`): the
argument, or `logcoe_<timestamp>.log` when the argument is `logcoe.log`. -/
def resolvedName (env : Env) (st : LoggerState) (filename : String) : String :=
  if filename = "logcoe.log" then "logcoe_" ++ (strftime env st.s_timeFormat).2 ++ ".log"
  else filename

/-- The state `initialize` has built when it reaches the test
`s_useFile && !filename.empty()` (after lines 136-146 of `logcoe.cpp`). -/
def configured (env : Env) (st : LoggerState) (level : LogLevel)
    (enableConsole enableFile : Bool) (filename : String) : LoggerState :=
  { st with
    s_logLevel := level
    s_useConsole := enableConsole
    s_consoleStream :=
      if enableConsole = true ∧ st.s_consoleStream = none then some cout else st.s_consoleStream
    s_useFile := enableFile
    s_filename := resolvedName env st filename }

/-! ## Log calls as operations -/

/-- The severity, message and source tag of a call of one of the four logging
functions; `none` for every other operation. -/
def Op.logArgs : Op → Option (LogLevel × String × String)
  | .debug message source _ => some (.DEBUG, message, source)
  | .info message source _ => some (.INFO, message, source)
  | .warning message source _ => some (.WARNING, message, source)
  | .error message source _ => some (.ERROR, message, source)
  | _ => none

/-- Whether the operation is a call of `debug`, `info`, `warning` or `error`. -/
def Op.isLog (op : Op) : Bool :=
  op.logArgs.isSome

/-- Whether the operation is a logging call whose severity is at least `t`. -/
def Op.passes (op : Op) (t : LogLevel) : Bool :=
  match op.logArgs with
  | some (level, _, _) => decide (t.toInt ≤ level.toInt)
  | none => false

/-- The characters a logging call hands to the sinks in state `st`: the text
built by `log` followed by the newline of `std::endl`. -/
def recordOf (env : Env) (st : LoggerState) (op : Op) : String :=
  match op.logArgs with
  | some (level, message, source) => formatMessage env st level message source ++ "\n"
  | none => ""

/-- The records of a list of logging calls, in call order. -/
def recordsOf (st : LoggerState) : List (Env × Op) → String
  | [] => ""
  | (env, op) :: rest => recordOf env st op ++ recordsOf st rest

/-- The number of newline characters in a text: the number of lines of a file
whose every line is terminated. -/
def lineCount (s : String) : Nat :=
  s.data.count '\n'

/-- Whether the record of a logging call is a single line: the message, the
source tag and the timestamp contain no newline character. -/
def oneLine (env : Env) (st : LoggerState) (op : Op) : Bool :=
  match op.logArgs with
  | some (_, message, source) =>
      lineCount message == 0 && lineCount source == 0
        && lineCount (strftime env st.s_timeFormat).2 == 0
  | none => false

/-! ## Concrete data for the examples -/

/-- Streams to which nothing has been written. -/
def emptyStreams : Nat → OStream := fun _ => { delivered := "", pending := "" }

/-- A disk without files. -/
def emptyDisk : Disk := fun _ => none

/-- An environment at a fixed instant: every non-empty pattern is rendered as
the same nineteen characters, and no path can be opened. -/
def sampleEnv : Env :=
  { now := 0
    format := fun _ _ => (19, "2025-01-01_00-00-00")
    canOpen := fun _ => false }

/-- The same instant in a file system where every path can be opened. -/
def openEnv : Env :=
  { now := 0
    format := fun _ _ => (19, "2025-01-01_00-00-00")
    canOpen := fun _ => true }

/-- The initial state with the console redirected to stream `1` and the
threshold set to `t`. -/
def sampleState (t : LogLevel) : LoggerState :=
  setLogLevel (setConsoleOutput (initialState emptyStreams emptyDisk) 1) t

/-- A state with threshold `WARNING`, no console and the log file `app.log`
freshly opened. -/
def fileState : LoggerState :=
  initialise openEnv (initialState emptyStreams emptyDisk) .WARNING false true "app.log"

/-- A pattern of 256 letters and no conversion specification: formatting it
gives the same 256 letters for every time. -/
def longPattern : String :=
  String.mk (List.replicate 256 'x')

/-- An environment whose `strftime` copies a pattern without conversion
specifications into the 256-byte buffer of `setTimeFormat`: the text and its
length when text and terminating zero fit, and `0` with the first 255
characters left in the buffer when they do not. -/
def bufferEnv : Env :=
  { now := 0
    format := fun pattern _ =>
      if pattern.length < 256 then (pattern.length, pattern)
      else (0, String.mk (pattern.data.take 255))
    canOpen := fun _ => false }

/-- The four public logging functions with the severity each one passes to
`log`. -/
def logCalls : List (LogLevel × (Env → LoggerState → String → String → Bool → LoggerState)) :=
  [(.DEBUG, debug), (.INFO, info), (.WARNING, warning), (.ERROR, error)]

/-! ## Auxiliary facts -/

theorem str_append_ne (c l : String) (h : l ≠ "") : c ++ l ≠ c := by
  intro e
  apply h
  have := congrArg String.length e
  simp at this
  exact String.ext (by simpa using List.length_eq_zero.mp this)

theorem writeToOutputs_drop (st : LoggerState) (m : String) (level : LogLevel) (fl : Bool)
    (h : level.toInt < st.s_logLevel.toInt) : writeToOutputs st m level fl = st := by
  simp [writeToOutputs, h]

theorem writeToOutputs_fields (st : LoggerState) (m : String) (level : LogLevel) (fl : Bool) :
    (writeToOutputs st m level fl).s_logLevel = st.s_logLevel ∧
    (writeToOutputs st m level fl).s_filename = st.s_filename ∧
    (writeToOutputs st m level fl).s_fileStream.isOpen = st.s_fileStream.isOpen ∧
    (writeToOutputs st m level fl).s_fileStream.path = st.s_fileStream.path ∧
    (writeToOutputs st m level fl).s_consoleStream = st.s_consoleStream ∧
    (writeToOutputs st m level fl).s_useFile = st.s_useFile ∧
    (writeToOutputs st m level fl).s_useConsole = st.s_useConsole ∧
    (writeToOutputs st m level fl).s_timeFormat = st.s_timeFormat := by
  obtain ⟨lvl, fn, ⟨o, p, b⟩, cs, uf, uc, tf, streams, disk⟩ := st
  by_cases h : level.toInt < lvl.toInt <;> cases uf <;> cases uc <;> cases cs <;> cases o <;>
    cases fl <;>
    simp [writeToOutputs, h, consoleWriteLine, consoleFlush, onStream, fileWriteLine, filePut,
      fileFlush]

theorem writeToOutputs_console_active (st : LoggerState) (m : String) (level : LogLevel)
    (fl : Bool) (id : Nat) (h : ¬ level.toInt < st.s_logLevel.toInt) (hc : ConsoleActive st id) :
    consoleContent (writeToOutputs st m level fl) id = consoleContent st id ++ (m ++ "\n") := by
  obtain ⟨lvl, fn, ⟨o, p, b⟩, cs, uf, uc, tf, streams, disk⟩ := st
  obtain ⟨h1, h2⟩ := hc
  simp only at h1 h2 h
  subst h1 h2
  cases uf <;> cases o <;> cases fl <;>
    simp [writeToOutputs, h, consoleWriteLine, consoleFlush, onStream, fileWriteLine, filePut,
      fileFlush, consoleContent, OStream.content, OStream.put, OStream.endl, OStream.flush,
      String.append_assoc]

theorem writeToOutputs_console_other (st : LoggerState) (m : String) (level : LogLevel)
    (fl : Bool) (j : Nat) (hc : ¬ ConsoleActive st j) :
    consoleContent (writeToOutputs st m level fl) j = consoleContent st j := by
  obtain ⟨lvl, fn, ⟨o, p, b⟩, cs, uf, uc, tf, streams, disk⟩ := st
  have hj : ∀ i, cs = some i → uc = true → ¬ j = i := by
    intro i h1 h2 e
    exact hc ⟨h2, by simpa [e] using h1⟩
  by_cases h : level.toInt < lvl.toInt <;> cases uf <;> cases uc <;> cases cs <;> cases o <;>
    cases fl <;>
    first
    | (simp [writeToOutputs, h, consoleWriteLine, consoleFlush, onStream, fileWriteLine,
        filePut, fileFlush, consoleContent, OStream.content, OStream.put, OStream.endl,
        OStream.flush]; done)
    | (have hne := hj _ rfl rfl
       simp [writeToOutputs, h, consoleWriteLine, consoleFlush, onStream, fileWriteLine,
        filePut, fileFlush, consoleContent, OStream.content, OStream.put, OStream.endl,
        OStream.flush, hne])

theorem writeToOutputs_file_active (st : LoggerState) (m : String) (level : LogLevel)
    (fl : Bool) (p : String) (h : ¬ level.toInt < st.s_logLevel.toInt) (hf : FileActive st p) :
    fileContent (writeToOutputs st m level fl) p
      = (fileContent st p).map (fun c => c ++ (m ++ "\n")) := by
  obtain ⟨lvl, fn, ⟨o, q, b⟩, cs, uf, uc, tf, streams, disk⟩ := st
  obtain ⟨h1, h2, h3⟩ := hf
  simp only at h1 h2 h3 h
  subst h1 h2 h3
  cases uc <;> cases cs <;> cases fl <;> cases hd : disk q <;>
    simp [writeToOutputs, h, consoleWriteLine, consoleFlush, onStream, fileWriteLine, filePut,
      fileFlush, fileContent, Disk.append, hd, String.append_assoc]

theorem writeToOutputs_file_other (st : LoggerState) (m : String) (level : LogLevel)
    (fl : Bool) (p : String) (hf : ¬ FileActive st p) :
    fileContent (writeToOutputs st m level fl) p = fileContent st p := by
  obtain ⟨lvl, fn, ⟨o, q, b⟩, cs, uf, uc, tf, streams, disk⟩ := st
  have hq : uf = true → o = true → ¬ p = q := by
    intro h1 h2 e
    exact hf ⟨h1, h2, e.symm⟩
  by_cases h : level.toInt < lvl.toInt <;> cases uf <;> cases uc <;> cases cs <;> cases o <;>
    cases fl <;> cases hd : disk p <;>
    first
    | (simp [writeToOutputs, h, consoleWriteLine, consoleFlush, onStream, fileWriteLine,
        filePut, fileFlush, fileContent, Disk.append, hd]; done)
    | (have hne := hq rfl rfl
       have hne2 : ¬ q = p := fun e => hne e.symm
       simp [writeToOutputs, h, consoleWriteLine, consoleFlush, onStream, fileWriteLine,
        filePut, fileFlush, fileContent, Disk.append, hd, hne, hne2])

/-! ## Frame facts: the fields an auxiliary operation leaves alone -/

theorem consoleFlush_fields (st : LoggerState) :
    (consoleFlush st).s_logLevel = st.s_logLevel ∧
    (consoleFlush st).s_filename = st.s_filename ∧
    (consoleFlush st).s_fileStream.isOpen = st.s_fileStream.isOpen ∧
    (consoleFlush st).s_fileStream.path = st.s_fileStream.path ∧
    (consoleFlush st).s_fileStream.pending = st.s_fileStream.pending ∧
    (consoleFlush st).s_consoleStream = st.s_consoleStream ∧
    (consoleFlush st).s_useFile = st.s_useFile ∧
    (consoleFlush st).s_useConsole = st.s_useConsole ∧
    (consoleFlush st).s_timeFormat = st.s_timeFormat ∧
    (consoleFlush st).disk = st.disk := by
  unfold consoleFlush onStream
  split <;> simp

@[simp]
theorem consoleFlush_s_logLevel (st : LoggerState) :
    (consoleFlush st).s_logLevel = st.s_logLevel :=
  (consoleFlush_fields st).1

@[simp]
theorem consoleFlush_s_filename (st : LoggerState) :
    (consoleFlush st).s_filename = st.s_filename :=
  (consoleFlush_fields st).2.1

@[simp]
theorem consoleFlush_file_isOpen (st : LoggerState) :
    (consoleFlush st).s_fileStream.isOpen = st.s_fileStream.isOpen :=
  (consoleFlush_fields st).2.2.1

@[simp]
theorem consoleFlush_file_path (st : LoggerState) :
    (consoleFlush st).s_fileStream.path = st.s_fileStream.path :=
  (consoleFlush_fields st).2.2.2.1

@[simp]
theorem consoleFlush_file_pending (st : LoggerState) :
    (consoleFlush st).s_fileStream.pending = st.s_fileStream.pending :=
  (consoleFlush_fields st).2.2.2.2.1

@[simp]
theorem consoleFlush_s_consoleStream (st : LoggerState) :
    (consoleFlush st).s_consoleStream = st.s_consoleStream :=
  (consoleFlush_fields st).2.2.2.2.2.1

@[simp]
theorem consoleFlush_s_useFile (st : LoggerState) :
    (consoleFlush st).s_useFile = st.s_useFile :=
  (consoleFlush_fields st).2.2.2.2.2.2.1

@[simp]
theorem consoleFlush_s_useConsole (st : LoggerState) :
    (consoleFlush st).s_useConsole = st.s_useConsole :=
  (consoleFlush_fields st).2.2.2.2.2.2.2.1

@[simp]
theorem consoleFlush_s_timeFormat (st : LoggerState) :
    (consoleFlush st).s_timeFormat = st.s_timeFormat :=
  (consoleFlush_fields st).2.2.2.2.2.2.2.2.1

@[simp]
theorem consoleFlush_disk (st : LoggerState) :
    (consoleFlush st).disk = st.disk :=
  (consoleFlush_fields st).2.2.2.2.2.2.2.2.2

theorem fileFlush_fields (st : LoggerState) :
    (fileFlush st).s_logLevel = st.s_logLevel ∧
    (fileFlush st).s_filename = st.s_filename ∧
    (fileFlush st).s_fileStream.isOpen = st.s_fileStream.isOpen ∧
    (fileFlush st).s_fileStream.path = st.s_fileStream.path ∧
    (fileFlush st).s_consoleStream = st.s_consoleStream ∧
    (fileFlush st).s_useFile = st.s_useFile ∧
    (fileFlush st).s_useConsole = st.s_useConsole ∧
    (fileFlush st).s_timeFormat = st.s_timeFormat ∧
    (fileFlush st).streams = st.streams := by
  unfold fileFlush
  split <;> simp

@[simp]
theorem fileFlush_s_logLevel (st : LoggerState) :
    (fileFlush st).s_logLevel = st.s_logLevel :=
  (fileFlush_fields st).1

@[simp]
theorem fileFlush_s_filename (st : LoggerState) :
    (fileFlush st).s_filename = st.s_filename :=
  (fileFlush_fields st).2.1

@[simp]
theorem fileFlush_file_isOpen (st : LoggerState) :
    (fileFlush st).s_fileStream.isOpen = st.s_fileStream.isOpen :=
  (fileFlush_fields st).2.2.1

@[simp]
theorem fileFlush_file_path (st : LoggerState) :
    (fileFlush st).s_fileStream.path = st.s_fileStream.path :=
  (fileFlush_fields st).2.2.2.1

@[simp]
theorem fileFlush_s_consoleStream (st : LoggerState) :
    (fileFlush st).s_consoleStream = st.s_consoleStream :=
  (fileFlush_fields st).2.2.2.2.1

@[simp]
theorem fileFlush_s_useFile (st : LoggerState) :
    (fileFlush st).s_useFile = st.s_useFile :=
  (fileFlush_fields st).2.2.2.2.2.1

@[simp]
theorem fileFlush_s_useConsole (st : LoggerState) :
    (fileFlush st).s_useConsole = st.s_useConsole :=
  (fileFlush_fields st).2.2.2.2.2.2.1

@[simp]
theorem fileFlush_s_timeFormat (st : LoggerState) :
    (fileFlush st).s_timeFormat = st.s_timeFormat :=
  (fileFlush_fields st).2.2.2.2.2.2.2.1

@[simp]
theorem fileFlush_streams (st : LoggerState) :
    (fileFlush st).streams = st.streams :=
  (fileFlush_fields st).2.2.2.2.2.2.2.2

theorem fileClose_fields (st : LoggerState) :
    (fileClose st).s_logLevel = st.s_logLevel ∧
    (fileClose st).s_filename = st.s_filename ∧
    (fileClose st).s_fileStream.path = st.s_fileStream.path ∧
    (fileClose st).s_consoleStream = st.s_consoleStream ∧
    (fileClose st).s_useFile = st.s_useFile ∧
    (fileClose st).s_useConsole = st.s_useConsole ∧
    (fileClose st).s_timeFormat = st.s_timeFormat ∧
    (fileClose st).streams = st.streams := by
  unfold fileClose fileFlush
  split <;> simp

@[simp]
theorem fileClose_s_logLevel (st : LoggerState) :
    (fileClose st).s_logLevel = st.s_logLevel :=
  (fileClose_fields st).1

@[simp]
theorem fileClose_s_filename (st : LoggerState) :
    (fileClose st).s_filename = st.s_filename :=
  (fileClose_fields st).2.1

@[simp]
theorem fileClose_file_path (st : LoggerState) :
    (fileClose st).s_fileStream.path = st.s_fileStream.path :=
  (fileClose_fields st).2.2.1

@[simp]
theorem fileClose_s_consoleStream (st : LoggerState) :
    (fileClose st).s_consoleStream = st.s_consoleStream :=
  (fileClose_fields st).2.2.2.1

@[simp]
theorem fileClose_s_useFile (st : LoggerState) :
    (fileClose st).s_useFile = st.s_useFile :=
  (fileClose_fields st).2.2.2.2.1

@[simp]
theorem fileClose_s_useConsole (st : LoggerState) :
    (fileClose st).s_useConsole = st.s_useConsole :=
  (fileClose_fields st).2.2.2.2.2.1

@[simp]
theorem fileClose_s_timeFormat (st : LoggerState) :
    (fileClose st).s_timeFormat = st.s_timeFormat :=
  (fileClose_fields st).2.2.2.2.2.2.1

@[simp]
theorem fileClose_streams (st : LoggerState) :
    (fileClose st).streams = st.streams :=
  (fileClose_fields st).2.2.2.2.2.2.2

theorem fileOpen_fields (env : Env) (st : LoggerState) (p : String) :
    (fileOpen env st p).s_logLevel = st.s_logLevel ∧
    (fileOpen env st p).s_filename = st.s_filename ∧
    (fileOpen env st p).s_consoleStream = st.s_consoleStream ∧
    (fileOpen env st p).s_useFile = st.s_useFile ∧
    (fileOpen env st p).s_useConsole = st.s_useConsole ∧
    (fileOpen env st p).s_timeFormat = st.s_timeFormat ∧
    (fileOpen env st p).streams = st.streams := by
  unfold fileOpen
  split_ifs <;> simp

@[simp]
theorem fileOpen_s_logLevel (env : Env) (st : LoggerState) (p : String) :
    (fileOpen env st p).s_logLevel = st.s_logLevel :=
  (fileOpen_fields env st p).1

@[simp]
theorem fileOpen_s_filename (env : Env) (st : LoggerState) (p : String) :
    (fileOpen env st p).s_filename = st.s_filename :=
  (fileOpen_fields env st p).2.1

@[simp]
theorem fileOpen_s_consoleStream (env : Env) (st : LoggerState) (p : String) :
    (fileOpen env st p).s_consoleStream = st.s_consoleStream :=
  (fileOpen_fields env st p).2.2.1

@[simp]
theorem fileOpen_s_useFile (env : Env) (st : LoggerState) (p : String) :
    (fileOpen env st p).s_useFile = st.s_useFile :=
  (fileOpen_fields env st p).2.2.2.1

@[simp]
theorem fileOpen_s_useConsole (env : Env) (st : LoggerState) (p : String) :
    (fileOpen env st p).s_useConsole = st.s_useConsole :=
  (fileOpen_fields env st p).2.2.2.2.1

@[simp]
theorem fileOpen_s_timeFormat (env : Env) (st : LoggerState) (p : String) :
    (fileOpen env st p).s_timeFormat = st.s_timeFormat :=
  (fileOpen_fields env st p).2.2.2.2.2.1

@[simp]
theorem fileOpen_streams (env : Env) (st : LoggerState) (p : String) :
    (fileOpen env st p).streams = st.streams :=
  (fileOpen_fields env st p).2.2.2.2.2.2

theorem flush_fields (st : LoggerState) :
    (flush st).s_logLevel = st.s_logLevel ∧
    (flush st).s_filename = st.s_filename ∧
    (flush st).s_fileStream.isOpen = st.s_fileStream.isOpen ∧
    (flush st).s_fileStream.path = st.s_fileStream.path ∧
    (flush st).s_consoleStream = st.s_consoleStream ∧
    (flush st).s_useFile = st.s_useFile ∧
    (flush st).s_useConsole = st.s_useConsole ∧
    (flush st).s_timeFormat = st.s_timeFormat := by
  obtain ⟨lvl, fn, ⟨o, q, b⟩, cs, uf, uc, tf, streams, disk⟩ := st
  cases uf <;> cases uc <;> cases cs <;> cases o <;>
    simp [flush, consoleFlush, onStream, fileFlush, fileIsOpen]

@[simp]
theorem flush_s_logLevel (st : LoggerState) :
    (flush st).s_logLevel = st.s_logLevel :=
  (flush_fields st).1

@[simp]
theorem flush_s_filename (st : LoggerState) :
    (flush st).s_filename = st.s_filename :=
  (flush_fields st).2.1

@[simp]
theorem flush_file_isOpen (st : LoggerState) :
    (flush st).s_fileStream.isOpen = st.s_fileStream.isOpen :=
  (flush_fields st).2.2.1

@[simp]
theorem flush_file_path (st : LoggerState) :
    (flush st).s_fileStream.path = st.s_fileStream.path :=
  (flush_fields st).2.2.2.1

@[simp]
theorem flush_s_consoleStream (st : LoggerState) :
    (flush st).s_consoleStream = st.s_consoleStream :=
  (flush_fields st).2.2.2.2.1

@[simp]
theorem flush_s_useFile (st : LoggerState) :
    (flush st).s_useFile = st.s_useFile :=
  (flush_fields st).2.2.2.2.2.1

@[simp]
theorem flush_s_useConsole (st : LoggerState) :
    (flush st).s_useConsole = st.s_useConsole :=
  (flush_fields st).2.2.2.2.2.2.1

@[simp]
theorem flush_s_timeFormat (st : LoggerState) :
    (flush st).s_timeFormat = st.s_timeFormat :=
  (flush_fields st).2.2.2.2.2.2.2

@[simp]
theorem writeToOutputs_s_logLevel (st : LoggerState) (m : String) (level : LogLevel) (fl : Bool) :
    (writeToOutputs st m level fl).s_logLevel = st.s_logLevel :=
  (writeToOutputs_fields st m level fl).1

@[simp]
theorem writeToOutputs_s_filename (st : LoggerState) (m : String) (level : LogLevel) (fl : Bool) :
    (writeToOutputs st m level fl).s_filename = st.s_filename :=
  (writeToOutputs_fields st m level fl).2.1

@[simp]
theorem writeToOutputs_file_isOpen (st : LoggerState) (m : String) (level : LogLevel) (fl : Bool) :
    (writeToOutputs st m level fl).s_fileStream.isOpen = st.s_fileStream.isOpen :=
  (writeToOutputs_fields st m level fl).2.2.1

@[simp]
theorem writeToOutputs_file_path (st : LoggerState) (m : String) (level : LogLevel) (fl : Bool) :
    (writeToOutputs st m level fl).s_fileStream.path = st.s_fileStream.path :=
  (writeToOutputs_fields st m level fl).2.2.2.1

@[simp]
theorem writeToOutputs_s_consoleStream (st : LoggerState) (m : String) (level : LogLevel) (fl : Bool) :
    (writeToOutputs st m level fl).s_consoleStream = st.s_consoleStream :=
  (writeToOutputs_fields st m level fl).2.2.2.2.1

@[simp]
theorem writeToOutputs_s_useFile (st : LoggerState) (m : String) (level : LogLevel) (fl : Bool) :
    (writeToOutputs st m level fl).s_useFile = st.s_useFile :=
  (writeToOutputs_fields st m level fl).2.2.2.2.2.1

@[simp]
theorem writeToOutputs_s_useConsole (st : LoggerState) (m : String) (level : LogLevel) (fl : Bool) :
    (writeToOutputs st m level fl).s_useConsole = st.s_useConsole :=
  (writeToOutputs_fields st m level fl).2.2.2.2.2.2.1

@[simp]
theorem writeToOutputs_s_timeFormat (st : LoggerState) (m : String) (level : LogLevel) (fl : Bool) :
    (writeToOutputs st m level fl).s_timeFormat = st.s_timeFormat :=
  (writeToOutputs_fields st m level fl).2.2.2.2.2.2.2

@[simp]
theorem fileClose_isOpen (st : LoggerState) : (fileClose st).s_fileStream.isOpen = false := by
  unfold fileClose fileFlush
  split <;> simp_all

theorem fileOpen_isOpen (env : Env) (st : LoggerState) (p : String) :
    (fileOpen env st p).s_fileStream.isOpen = (st.s_fileStream.isOpen || env.canOpen p) := by
  unfold fileOpen
  split_ifs <;> simp_all

theorem initialise_console (env : Env) (st : LoggerState) (level : LogLevel)
    (enableConsole enableFile : Bool) (filename : String) :
    (initialise env st level enableConsole enableFile filename).s_useConsole = enableConsole ∧
    (initialise env st level enableConsole enableFile filename).s_consoleStream
      = (if enableConsole = true ∧ st.s_consoleStream = none then some cout
         else st.s_consoleStream) := by
  cases enableConsole <;> cases h : st.s_consoleStream <;>
  simp [initialise, apply_ite LoggerState.s_useConsole, apply_ite LoggerState.s_consoleStream, h]

/-! ## The log calls -/

theorem append_newline_ne (x : String) : x ++ "\n" ≠ "" := by
  intro e
  have := congrArg String.length e
  simp at this
  exact absurd this.2 (by decide)

theorem log_sinks (env : Env) (st : LoggerState) (level : LogLevel) (message source : String)
    (fl : Bool) :
    (∀ id, ConsoleActive st id →
      (consoleContent (log env st level message source fl) id
          = consoleContent st id ++ (formatMessage env st level message source ++ "\n")
        ↔ st.s_logLevel.toInt ≤ level.toInt)) ∧
    (∀ p c, FileActive st p → fileContent st p = some c →
      (fileContent (log env st level message source fl) p
          = some (c ++ (formatMessage env st level message source ++ "\n"))
        ↔ st.s_logLevel.toInt ≤ level.toInt)) ∧
    (level.toInt < st.s_logLevel.toInt →
      (∀ id, consoleContent (log env st level message source fl) id = consoleContent st id) ∧
      (∀ p, fileContent (log env st level message source fl) p = fileContent st p)) := by
  by_cases h : level.toInt < st.s_logLevel.toInt
  · have hd : log env st level message source fl = st := writeToOutputs_drop st _ level fl h
    have hn : ¬ st.s_logLevel.toInt ≤ level.toInt := by omega
    refine ⟨fun id _ => ?_, fun p c _ hc => ?_, fun _ => ?_⟩
    · rw [hd]
      exact ⟨fun e => absurd e.symm (str_append_ne _ _ (append_newline_ne _)), fun e => absurd e hn⟩
    · rw [hd, hc]
      refine ⟨fun e => ?_, fun e => absurd e hn⟩
      exact absurd (Option.some.inj e).symm (str_append_ne _ _ (append_newline_ne _))
    · rw [hd]
      exact ⟨fun _ => rfl, fun _ => rfl⟩
  · have hle : st.s_logLevel.toInt ≤ level.toInt := by omega
    refine ⟨fun id ha => ?_, fun p c ha hc => ?_, fun h2 => absurd h2 h⟩
    · exact ⟨fun _ => hle, fun _ => writeToOutputs_console_active st _ level fl id h ha⟩
    · refine ⟨fun _ => hle, fun _ => ?_⟩
      have := writeToOutputs_file_active st (formatMessage env st level message source)
        level fl p h ha
      rw [hc] at this
      simpa [log] using this

/-- C1. A call of `debug`, `info`, `warning` or `error` appends its line to the
active console stream and to the active log file exactly when the severity of
the call is at least the threshold (`DEBUG < INFO < WARNING < ERROR < NONE`);
below the threshold no stream and no file changes. -/
theorem log_call_filtered_by_threshold :
    ∀ call ∈ logCalls, ∀ (env : Env) (st : LoggerState) (message source : String) (fl : Bool),
      (∀ id, ConsoleActive st id →
        (consoleContent (call.2 env st message source fl) id
            = consoleContent st id ++ (formatMessage env st call.1 message source ++ "\n")
          ↔ st.s_logLevel.toInt ≤ call.1.toInt)) ∧
      (∀ p c, FileActive st p → fileContent st p = some c →
        (fileContent (call.2 env st message source fl) p
            = some (c ++ (formatMessage env st call.1 message source ++ "\n"))
          ↔ st.s_logLevel.toInt ≤ call.1.toInt)) ∧
      (call.1.toInt < st.s_logLevel.toInt →
        (∀ id, consoleContent (call.2 env st message source fl) id = consoleContent st id) ∧
        (∀ p, fileContent (call.2 env st message source fl) p = fileContent st p)) := by
  intro call hc env st message source fl
  simp only [logCalls, List.mem_cons, List.mem_singleton, List.not_mem_nil, or_false] at hc
  rcases hc with rfl | rfl | rfl | rfl
  · exact log_sinks env st .DEBUG message source fl
  · exact log_sinks env st .INFO message source fl
  · exact log_sinks env st .WARNING message source fl
  · exact log_sinks env st .ERROR message source fl

/-- Witness for C1: with threshold `WARNING` an `error` call reaches the
console stream and an `info` call leaves it as it was. -/
theorem log_call_filtered_by_threshold_witness :
    ConsoleActive (sampleState .WARNING) 1 ∧
    consoleContent (error sampleEnv (sampleState .WARNING) "disk full" "" true) 1
      = "[2025-01-01_00-00-00] [ERROR]: disk full\n" ∧
    consoleContent (info sampleEnv (sampleState .WARNING) "started" "" true) 1 = "" :=
  ⟨by decide,
   (((log_call_filtered_by_threshold (.ERROR, error) (by simp [logCalls]) sampleEnv
      (sampleState .WARNING) "disk full" "" true).1 1 (by decide)).mpr (by decide)).trans
      (by decide),
   (((log_call_filtered_by_threshold (.INFO, info) (by simp [logCalls]) sampleEnv
      (sampleState .WARNING) "started" "" true).2.2 (by decide)).1 1).trans (by decide)⟩

theorem formatMessage_eq (env : Env) (st : LoggerState) (level : LogLevel)
    (message source : String) :
    formatMessage env st level message source
      = "[" ++ (strftime env st.s_timeFormat).2 ++ "] [" ++ getLogLevelAsString level ++ "]"
        ++ (if source = "" then "" else " [" ++ source ++ "]") ++ ": " ++ message := by
  unfold formatMessage getCurrentTimestamp
  have e : ∀ x : String, "] " ++ ("[" ++ x) = "] [" ++ x := fun x => by
    rw [← String.append_assoc]
    rfl
  by_cases h : source = "" <;>
    simp only [h, if_true, if_false, not_true_eq_false, not_false_eq_true, String.append_assoc,
      String.empty_append, String.append_empty, e]

theorem log_text (env : Env) (st : LoggerState) (level : LogLevel) (message source : String)
    (fl : Bool) (h : st.s_logLevel.toInt ≤ level.toInt) :
    (∀ id, ConsoleActive st id →
      consoleContent (log env st level message source fl) id
        = consoleContent st id
          ++ ("[" ++ (strftime env st.s_timeFormat).2 ++ "] [" ++ getLogLevelAsString level ++ "]"
            ++ (if source = "" then "" else " [" ++ source ++ "]") ++ ": " ++ message ++ "\n")) ∧
    (∀ p, FileActive st p →
      fileContent (log env st level message source fl) p
        = (fileContent st p).map fun old => old
          ++ ("[" ++ (strftime env st.s_timeFormat).2 ++ "] [" ++ getLogLevelAsString level ++ "]"
            ++ (if source = "" then "" else " [" ++ source ++ "]") ++ ": " ++ message ++ "\n")) := by
  have hn : ¬ level.toInt < st.s_logLevel.toInt := by omega
  refine ⟨fun id ha => ?_, fun p ha => ?_⟩
  · rw [← formatMessage_eq]
    exact writeToOutputs_console_active st _ level fl id hn ha
  · rw [← formatMessage_eq]
    exact writeToOutputs_file_active st _ level fl p hn ha

/-- C2. The text a passing `debug`, `info`, `warning` or `error` call writes to
a sink is `[ts] [LEVEL]`, then ` [source]` when the source tag is not empty,
then `: message` and a newline, where `ts` is `strftime` of the current time
under the current `s_timeFormat` and `LEVEL` is the upper-case level name. -/
theorem log_record_text :
    ∀ c ∈ ([(.DEBUG, "DEBUG", debug), (.INFO, "INFO", info), (.WARNING, "WARNING", warning),
        (.ERROR, "ERROR", error)] :
        List (LogLevel × String × (Env → LoggerState → String → String → Bool → LoggerState))),
    ∀ (env : Env) (st : LoggerState) (message source : String) (fl : Bool),
      st.s_logLevel.toInt ≤ c.1.toInt →
      (∀ id, ConsoleActive st id →
        consoleContent (c.2.2 env st message source fl) id
          = consoleContent st id
            ++ ("[" ++ (strftime env st.s_timeFormat).2 ++ "] [" ++ c.2.1 ++ "]"
              ++ (if source = "" then "" else " [" ++ source ++ "]") ++ ": " ++ message
              ++ "\n")) ∧
      (∀ p, FileActive st p →
        fileContent (c.2.2 env st message source fl) p
          = (fileContent st p).map fun old => old
            ++ ("[" ++ (strftime env st.s_timeFormat).2 ++ "] [" ++ c.2.1 ++ "]"
              ++ (if source = "" then "" else " [" ++ source ++ "]") ++ ": " ++ message
              ++ "\n")) := by
  intro c hc env st message source fl h
  simp only [List.mem_cons, List.mem_singleton, List.not_mem_nil, or_false] at hc
  rcases hc with rfl | rfl | rfl | rfl
  · exact log_text env st .DEBUG message source fl h
  · exact log_text env st .INFO message source fl h
  · exact log_text env st .WARNING message source fl h
  · exact log_text env st .ERROR message source fl h

/-- Witness for C2: an `info` call with source tag `net` at threshold `INFO`. -/
theorem log_record_text_witness :
    (sampleState .INFO).s_logLevel.toInt ≤ LogLevel.INFO.toInt ∧
    ConsoleActive (sampleState .INFO) 1 ∧
    consoleContent (info sampleEnv (sampleState .INFO) "link up" "net" true) 1
      = "[2025-01-01_00-00-00] [INFO] [net]: link up\n" :=
  ⟨by decide, by decide,
   ((log_record_text (.INFO, "INFO", info) (by simp) sampleEnv (sampleState .INFO) "link up"
      "net" true (by decide)).1 1 (by decide)).trans (by decide)⟩

/-- C3. Reading the level right after `setLogLevel L` returns `L`. -/
theorem getLogLevel_after_setLogLevel (st : LoggerState) (L : LogLevel) :
    getLogLevel (setLogLevel st L) = L := rfl

/-- C4. The flag returned by `setFileOutput` is true exactly when the resolved
path can be opened; the resolved path is the argument when it is not empty and
`logcoe_<timestamp>.log` otherwise.  Afterwards `s_useFile` and the open state
of `s_fileStream` equal the returned flag and `s_filename` is the resolved
path. -/
theorem setFileOutput_result (env : Env) (st : LoggerState) (filename : String) :
    ((setFileOutput env st filename).1 = true ↔
      env.canOpen (if filename = "" then "logcoe_" ++ (strftime env st.s_timeFormat).2 ++ ".log"
        else filename) = true) ∧
    (setFileOutput env st filename).2.s_useFile = (setFileOutput env st filename).1 ∧
    fileIsOpen (setFileOutput env st filename).2 = (setFileOutput env st filename).1 ∧
    (setFileOutput env st filename).2.s_filename
      = (if filename = "" then "logcoe_" ++ (strftime env st.s_timeFormat).2 ++ ".log"
        else filename) := by
  obtain ⟨lvl, fn, ⟨o, q, b⟩, cs, uf, uc, tf, streams, disk⟩ := st
  by_cases hf : filename = "" <;> cases o <;> cases uf <;>
    cases hc : env.canOpen (if filename = "" then "logcoe_" ++ (strftime env tf).2 ++ ".log"
        else filename) <;>
    simp [hf] at hc <;>
    simp [setFileOutput, fileIsOpen, fileFlush, fileClose, fileOpen, getCurrentTimestamp, hf, hc,
      writeToOutputs_fields]

/-! ## File and console configuration -/

/-- C5 (as stated) fails: with threshold `WARNING` and an active console, a
failed `setFileOutput` writes nothing to the console. -/
theorem setFileOutput_failure_silent_at_warning :
    ConsoleActive (sampleState .WARNING) 1 ∧
    sampleEnv.canOpen "/no/such/dir/app.log" = false ∧
    (setFileOutput sampleEnv (sampleState .WARNING) "/no/such/dir/app.log").1 = false ∧
    consoleContent (setFileOutput sampleEnv (sampleState .WARNING) "/no/such/dir/app.log").2 1
      = "" ∧
    consoleContent (setFileOutput sampleEnv (sampleState .WARNING) "/no/such/dir/app.log").2 1
      ≠ consoleContent (sampleState .WARNING) 1
        ++ "ERROR: Failed to open log file: /no/such/dir/app.log\n" := by
  decide

theorem fileClose_console (st : LoggerState) (id : Nat) :
    consoleContent (fileClose st) id = consoleContent st id := by
  simp [consoleContent]

theorem fileFlush_console (st : LoggerState) (id : Nat) :
    consoleContent (fileFlush st) id = consoleContent st id := by
  simp [consoleContent]

/-- C5 (amended). When the console is active and the resolved path cannot be
opened, `setFileOutput` writes the line `ERROR: Failed to open log file: <path>`
at the default severity `INFO`: the console stream gains that line when the
threshold is `DEBUG` or `INFO`, and is left as it was for a higher threshold. -/
theorem setFileOutput_failure_reported_at_info (env : Env) (st : LoggerState)
    (filename : String) (id : Nat) (hc : ConsoleActive st id)
    (hopen : env.canOpen (if filename = ""
      then "logcoe_" ++ (strftime env st.s_timeFormat).2 ++ ".log" else filename) = false) :
    (st.s_logLevel.toInt ≤ LogLevel.INFO.toInt →
      consoleContent (setFileOutput env st filename).2 id
        = consoleContent st id ++ ("ERROR: Failed to open log file: "
          ++ (if filename = "" then "logcoe_" ++ (strftime env st.s_timeFormat).2 ++ ".log"
              else filename) ++ "\n")) ∧
    (LogLevel.INFO.toInt < st.s_logLevel.toInt →
      consoleContent (setFileOutput env st filename).2 id = consoleContent st id) := by
  obtain ⟨lvl, fn, ⟨o, q, b⟩, cs, uf, uc, tf, streams, disk⟩ := st
  obtain ⟨h1, h2⟩ := hc
  simp only at h1 h2 hopen
  subst h1 h2
  constructor
  · intro hl
    have hn : ¬ LogLevel.INFO.toInt < lvl.toInt := by
      simp only at hl
      omega
    by_cases hf : filename = "" <;>
      simp only [hf, if_true, if_false, String.append_assoc] at hopen <;>
      cases o <;> cases uf <;>
      simp [setFileOutput, fileIsOpen, fileFlush, fileClose, fileOpen, getCurrentTimestamp, hf,
        hopen, hn, writeToOutputs, consoleWriteLine, consoleFlush, onStream, fileWriteLine,
        filePut, consoleContent, OStream.content, OStream.put, OStream.endl, OStream.flush,
        String.append_assoc]
  · intro hl
    simp only at hl
    by_cases hf : filename = "" <;>
      simp only [hf, if_true, if_false, String.append_assoc] at hopen <;>
      cases o <;> cases uf <;>
      simp [setFileOutput, fileIsOpen, fileFlush, fileClose, fileOpen, getCurrentTimestamp, hf,
        hopen, hl, writeToOutputs, consoleWriteLine, consoleFlush, onStream, fileWriteLine,
        filePut, consoleContent, OStream.content, OStream.put, OStream.endl, OStream.flush,
        String.append_assoc]

/-- Witness for C5 (amended): at threshold `INFO` the failure line reaches the
console. -/
theorem setFileOutput_failure_reported_at_info_witness :
    ConsoleActive (sampleState .INFO) 1 ∧
    sampleEnv.canOpen "/no/such/dir/app.log" = false ∧
    consoleContent (setFileOutput sampleEnv (sampleState .INFO) "/no/such/dir/app.log").2 1
      = "ERROR: Failed to open log file: /no/such/dir/app.log\n" :=
  ⟨by decide, by decide,
   ((setFileOutput_failure_reported_at_info sampleEnv (sampleState .INFO)
      "/no/such/dir/app.log" 1 (by decide) (by decide)).1 (by decide)).trans (by decide)⟩

/-- C6 (failing input). From the initial state, `initialize` with
`enableFile = true` and an empty file name yields a reachable state in which
`s_useFile` is set although `s_fileStream` is not open. -/
theorem initialise_empty_name_enabled_without_file (env : Env) (streams : Nat → OStream)
    (disk : Disk) (level : LogLevel) (enableConsole : Bool) :
    Reachable (initialise env (initialState streams disk) level enableConsole true "") ∧
    (initialise env (initialState streams disk) level enableConsole true "").s_useFile = true ∧
    fileIsOpen (initialise env (initialState streams disk) level enableConsole true "")
      = false :=
  ⟨Reachable.call env (.initialise level enableConsole true "") (Reachable.start streams disk),
   by simp [initialise, initialState, apply_ite LoggerState.s_useFile],
   by simp [initialise, initialState, fileIsOpen, apply_ite LoggerState.s_fileStream,
     apply_ite OFStream.isOpen]⟩

theorem setFileOutput_fields (env : Env) (st : LoggerState) (filename : String) :
    (setFileOutput env st filename).2.s_useFile = (setFileOutput env st filename).1 ∧
    (setFileOutput env st filename).2.s_fileStream.isOpen = (setFileOutput env st filename).1 := by
  obtain ⟨lvl, fn, ⟨o, q, b⟩, cs, uf, uc, tf, streams, disk⟩ := st
  cases o <;> cases uf <;>
    cases hc : env.canOpen (if filename = "" then "logcoe_" ++ (strftime env tf).2 ++ ".log"
        else filename) <;>
    simp [setFileOutput, fileIsOpen, fileFlush, fileClose, fileOpen, getCurrentTimestamp, hc]

theorem initialise_file_inv (env : Env) (st : LoggerState) (level : LogLevel)
    (enableConsole enableFile : Bool) (filename : String)
    (hne : ¬ (enableFile = true ∧ filename = "")) :
    (initialise env st level enableConsole enableFile filename).s_useFile = true →
    (initialise env st level enableConsole enableFile filename).s_fileStream.isOpen = true := by
  cases enableFile
  · simp [initialise, apply_ite LoggerState.s_useFile]
  · have hf : ¬ filename = "" := fun e => hne ⟨rfl, e⟩
    unfold initialise
    lift_lets
    intro s1 s2 s3 s4 s5 s6 c o w s7
    simp only [writeToOutputs_s_useFile, writeToOutputs_file_isOpen]
    have h4 : s4.s_useFile = true := rfl
    have h5 : s5.s_useFile = true := by
      simp only [s5]
      split_ifs <;> exact h4
    have h6 : s6.s_useFile = true := by
      simp only [s6]
      split_ifs <;> exact h5
    have h7 : s7 = (if !fileIsOpen o then { w with s_useFile := false } else o) := by
      simp only [s7, h6, hf, Bool.true_and, decide_False, Bool.not_false, if_true]
    rw [h7]
    by_cases hx : fileIsOpen o = true
    · simp only [hx, Bool.not_true, Bool.false_eq_true, if_false]
      intro _
      exact hx
    · simp [hx]

/-- Every public call other than `initialize` with `enableFile = true` and an
empty file name keeps `s_useFile` from being set while the stream is closed. -/
theorem step_file_inv (env : Env) (st : LoggerState) (op : Op)
    (hne : ∀ level enableConsole, op ≠ .initialise level enableConsole true "")
    (h : st.s_useFile = true → st.s_fileStream.isOpen = true) :
    (step env st op).s_useFile = true → (step env st op).s_fileStream.isOpen = true := by
  cases op with
  | initialise level enableConsole enableFile filename =>
      apply initialise_file_inv
      rintro ⟨rfl, rfl⟩
      exact hne level enableConsole rfl
  | shutdown => simp [step, shutdown]
  | setLogLevel level => simpa [step, setLogLevel] using h
  | setConsoleOutput stream =>
      simpa [step, setConsoleOutput, apply_ite LoggerState.s_useFile,
        apply_ite LoggerState.s_fileStream, apply_ite OFStream.isOpen] using h
  | setFileOutput filename =>
      have := (setFileOutput_fields env st filename)
      simp only [step]
      intro hu
      rw [this.2, ← this.1]
      exact hu
  | disableConsoleOutput =>
      simpa [step, disableConsoleOutput, apply_ite LoggerState.s_useFile,
        apply_ite LoggerState.s_fileStream, apply_ite OFStream.isOpen] using h
  | disableFileOutput => simp [step, disableFileOutput]
  | setTimeFormat format =>
      by_cases h0 : (strftime env format).1 = 0 <;> simpa [step, setTimeFormat, h0] using h
  | getLogLevel => simpa [step] using h
  | debug message source fl => simpa [step, debug, log] using h
  | info message source fl => simpa [step, info, log] using h
  | warning message source fl => simpa [step, warning, log] using h
  | error message source fl => simpa [step, error, log] using h
  | flush => simpa [step] using h

theorem step_console_inv (env : Env) (st : LoggerState) (op : Op)
    (h : st.s_useConsole = true → st.s_consoleStream ≠ none) :
    (step env st op).s_useConsole = true → (step env st op).s_consoleStream ≠ none := by
  cases op with
  | initialise level enableConsole enableFile filename =>
      simp only [step, (initialise_console env st level enableConsole enableFile filename).1,
        (initialise_console env st level enableConsole enableFile filename).2]
      intro he
      by_cases hn : st.s_consoleStream = none <;> simp [he, hn]
  | shutdown => simp [step, shutdown]
  | setLogLevel level => simpa [step, setLogLevel] using h
  | setConsoleOutput stream => simp [step, setConsoleOutput]
  | setFileOutput filename =>
      simpa [step, setFileOutput, apply_ite LoggerState.s_useConsole,
        apply_ite LoggerState.s_consoleStream] using h
  | disableConsoleOutput => simp [step, disableConsoleOutput]
  | disableFileOutput =>
      simpa [step, disableFileOutput, apply_ite LoggerState.s_useConsole,
        apply_ite LoggerState.s_consoleStream] using h
  | setTimeFormat format =>
      simpa [step, setTimeFormat, apply_ite LoggerState.s_useConsole,
        apply_ite LoggerState.s_consoleStream] using h
  | getLogLevel => simpa [step] using h
  | debug message source fl => simpa [step, debug, log] using h
  | info message source fl => simpa [step, info, log] using h
  | warning message source fl => simpa [step, warning, log] using h
  | error message source fl => simpa [step, error, log] using h
  | flush => simpa [step] using h

/-- C7. In every state reachable from the initial state by public calls,
`s_useConsole` implies that `s_consoleStream` is not null; and
`disableConsoleOutput` leaves the pointer null and `s_useConsole` false. -/
theorem console_enabled_implies_stream_set :
    (∀ st, Reachable st → st.s_useConsole = true → st.s_consoleStream ≠ none) ∧
    (∀ st, (disableConsoleOutput st).s_consoleStream = none ∧
      (disableConsoleOutput st).s_useConsole = false) := by
  constructor
  · intro st hr
    induction hr with
    | start streams disk => simp [initialState]
    | call env op _ ih => exact step_console_inv env _ op ih
  · intro st
    simp [disableConsoleOutput]

/-- Witness for C7: the state after `setConsoleOutput` and `setLogLevel`. -/
theorem console_enabled_implies_stream_set_witness :
    Reachable (sampleState .INFO) ∧ (sampleState .INFO).s_useConsole = true ∧
    (sampleState .INFO).s_consoleStream ≠ none :=
  ⟨Reachable.call sampleEnv (.setLogLevel .INFO)
      (Reachable.call sampleEnv (.setConsoleOutput 1) (Reachable.start emptyStreams emptyDisk)),
   rfl,
   console_enabled_implies_stream_set.1 (sampleState .INFO)
    (Reachable.call sampleEnv (.setLogLevel .INFO)
      (Reachable.call sampleEnv (.setConsoleOutput 1) (Reachable.start emptyStreams emptyDisk)))
    rfl⟩

/-! ## Time format and shutdown -/

/-- C8 (as stated) fails: a pattern of 256 letters formats to 256 letters,
which is not empty, but does not fit the buffer of 256 bytes, so `strftime`
returns `0` and `setTimeFormat` keeps the previous format. -/
theorem setTimeFormat_rejects_overlong_output :
    longPattern.length = 256 ∧
    (strftime bufferEnv longPattern).2 ≠ "" ∧
    (strftime bufferEnv longPattern).1 = 0 ∧
    (setTimeFormat bufferEnv (sampleState .INFO) longPattern).s_timeFormat
      = "%Y-%m-%d_%H-%M-%S" ∧
    (setTimeFormat bufferEnv (sampleState .INFO) longPattern).s_timeFormat ≠ longPattern := by
  set_option maxRecDepth 8000 in
  decide

/-- C8 (amended). The function `setTimeFormat` validates before it commits,
and what it tests is the value `strftime` returns: when that value is `0` (as
it is for the empty pattern, and for a pattern whose output does not fit the
256-byte buffer) `s_timeFormat` keeps its value, otherwise it becomes the
candidate; no other configuration field changes. -/
theorem setTimeFormat_validate_then_commit (env : Env) (st : LoggerState) (f : String) :
    ((strftime env f).1 = 0 → (setTimeFormat env st f).s_timeFormat = st.s_timeFormat) ∧
    ((strftime env f).1 ≠ 0 → (setTimeFormat env st f).s_timeFormat = f) ∧
    (setTimeFormat env st "").s_timeFormat = st.s_timeFormat ∧
    (setTimeFormat env st f).s_logLevel = st.s_logLevel ∧
    (setTimeFormat env st f).s_filename = st.s_filename ∧
    (setTimeFormat env st f).s_useFile = st.s_useFile ∧
    (setTimeFormat env st f).s_useConsole = st.s_useConsole ∧
    (setTimeFormat env st f).s_consoleStream = st.s_consoleStream ∧
    (setTimeFormat env st f).s_fileStream.isOpen = st.s_fileStream.isOpen ∧
    (setTimeFormat env st f).s_fileStream.path = st.s_fileStream.path := by
  refine ⟨fun h => ?_, fun h => ?_, ?_, ?_⟩
  · simp [setTimeFormat, h]
  · simp [setTimeFormat, h]
  · simp [setTimeFormat, strftime]
  · by_cases h : (strftime env f).1 = 0 <;> simp [setTimeFormat, h]

/-- Witness for C8 (amended): a pattern for which `strftime` returns nineteen
is adopted, and the empty pattern, for which it returns `0`, is not. -/
theorem setTimeFormat_validate_then_commit_witness :
    (strftime sampleEnv "%H:%M:%S").1 ≠ 0 ∧
    (setTimeFormat sampleEnv (sampleState .INFO) "%H:%M:%S").s_timeFormat = "%H:%M:%S" ∧
    (strftime sampleEnv "").1 = 0 ∧
    (setTimeFormat sampleEnv (sampleState .INFO) "").s_timeFormat = "%Y-%m-%d_%H-%M-%S" :=
  ⟨by decide,
   (setTimeFormat_validate_then_commit sampleEnv (sampleState .INFO) "%H:%M:%S").2.1
    (by decide),
   by decide,
   ((setTimeFormat_validate_then_commit sampleEnv (sampleState .INFO) "").1
    (by decide)).trans (by decide)⟩

/-- C9 (as stated) fails: with threshold `WARNING` and an active console,
`setTimeFormat ""` writes nothing to the console. -/
theorem setTimeFormat_empty_silent_at_warning :
    ConsoleActive (sampleState .WARNING) 1 ∧
    (strftime sampleEnv "").1 = 0 ∧
    setTimeFormat sampleEnv (sampleState .WARNING) "" = sampleState .WARNING ∧
    consoleContent (setTimeFormat sampleEnv (sampleState .WARNING) "") 1 = "" ∧
    consoleContent (setTimeFormat sampleEnv (sampleState .WARNING) "") 1
      ≠ consoleContent (sampleState .WARNING) 1
        ++ "ERROR: Invalid time format provided: \"\". Keeping the current format\n" :=
  ⟨by decide, by decide, rfl, by decide, by decide⟩

/-- C9 (amended). When `strftime` returns `0` for the candidate pattern,
`setTimeFormat` writes the line `ERROR: Invalid time format provided: "<f>".
Keeping the current format` at the default severity `INFO`: with threshold
`DEBUG` or `INFO` the active console stream and the active log file each gain
that line; with a higher threshold the state is left as it was. -/
theorem setTimeFormat_rejection_reported_at_info (env : Env) (st : LoggerState) (f : String)
    (h0 : (strftime env f).1 = 0) :
    (st.s_logLevel.toInt ≤ LogLevel.INFO.toInt →
      (∀ id, ConsoleActive st id →
        consoleContent (setTimeFormat env st f) id
          = consoleContent st id
            ++ ("ERROR: Invalid time format provided: \"" ++ f
              ++ "\". Keeping the current format" ++ "\n")) ∧
      (∀ p, FileActive st p →
        fileContent (setTimeFormat env st f) p
          = (fileContent st p).map fun old => old
            ++ ("ERROR: Invalid time format provided: \"" ++ f
              ++ "\". Keeping the current format" ++ "\n"))) ∧
    (LogLevel.INFO.toInt < st.s_logLevel.toInt → setTimeFormat env st f = st) := by
  constructor
  · intro hl
    have hn : ¬ LogLevel.INFO.toInt < st.s_logLevel.toInt := by omega
    refine ⟨fun id ha => ?_, fun p ha => ?_⟩
    · simpa [setTimeFormat, h0] using writeToOutputs_console_active st _ .INFO true id hn ha
    · simpa [setTimeFormat, h0] using writeToOutputs_file_active st _ .INFO true p hn ha
  · intro hl
    simpa [setTimeFormat, h0] using writeToOutputs_drop st _ .INFO true hl

/-- Witness for C9 (amended): at threshold `INFO` the empty pattern is
reported on the console. -/
theorem setTimeFormat_rejection_reported_at_info_witness :
    (strftime sampleEnv "").1 = 0 ∧
    ConsoleActive (sampleState .INFO) 1 ∧
    consoleContent (setTimeFormat sampleEnv (sampleState .INFO) "") 1
      = "ERROR: Invalid time format provided: \"\". Keeping the current format\n" :=
  ⟨by decide, by decide,
   (((setTimeFormat_rejection_reported_at_info sampleEnv (sampleState .INFO) "" (by decide)).1
      (by decide)).1 1 (by decide)).trans (by decide)⟩

/-- C10. After `shutdown` the console and the file sink are disabled, the
threshold is `NONE`, the console pointer is null, the file stream is closed
and `s_filename` is `logcoe.log`. -/
theorem shutdown_resets (st : LoggerState) :
    (shutdown st).s_useConsole = false ∧
    (shutdown st).s_useFile = false ∧
    (shutdown st).s_logLevel = LogLevel.NONE ∧
    (shutdown st).s_consoleStream = none ∧
    fileIsOpen (shutdown st) = false ∧
    (shutdown st).s_filename = "logcoe.log" := by
  refine ⟨by simp [shutdown], by simp [shutdown], by simp [shutdown], by simp [shutdown], ?_,
    by simp [shutdown]⟩
  by_cases h : st.s_fileStream.isOpen = true <;> simp [shutdown, fileIsOpen, h]

/-! ## Shutdown, continued -/

/-- C11 (as stated) fails: a time format set before `shutdown` is still in
force after it. -/
theorem shutdown_keeps_custom_timeFormat :
    (strftime sampleEnv "%H:%M:%S").1 ≠ 0 ∧
    (shutdown (setTimeFormat sampleEnv (sampleState .INFO) "%H:%M:%S")).s_timeFormat
      = "%H:%M:%S" ∧
    (shutdown (setTimeFormat sampleEnv (sampleState .INFO) "%H:%M:%S")).s_timeFormat
      ≠ "%Y-%m-%d_%H-%M-%S" := by
  decide

theorem shutdown_fields (st : LoggerState) :
    (shutdown st).s_useConsole = false ∧
    (shutdown st).s_useFile = false ∧
    (shutdown st).s_logLevel = LogLevel.NONE ∧
    (shutdown st).s_consoleStream = none ∧
    (shutdown st).s_fileStream.isOpen = false ∧
    (shutdown st).s_filename = "logcoe.log" ∧
    (shutdown st).s_timeFormat = st.s_timeFormat := by
  refine ⟨by simp [shutdown], by simp [shutdown], by simp [shutdown], by simp [shutdown], ?_,
    by simp [shutdown], ?_⟩
  · by_cases h : st.s_fileStream.isOpen = true <;> simp [shutdown, fileIsOpen, h]
  · by_cases h : st.s_fileStream.isOpen = true <;> simp [shutdown, fileIsOpen, h]

/-- C11 (amended). The function `shutdown` disables both sinks, sets the
threshold to `NONE`, nulls the console pointer, closes the file stream and
resets `s_filename` to `logcoe.log`; it leaves `s_timeFormat` as it was, so a
format accepted by `setTimeFormat` is still in force after `shutdown`. -/
theorem shutdown_resets_all_but_timeFormat (st : LoggerState) :
    (shutdown st).s_useConsole = false ∧
    (shutdown st).s_useFile = false ∧
    (shutdown st).s_logLevel = LogLevel.NONE ∧
    (shutdown st).s_consoleStream = none ∧
    fileIsOpen (shutdown st) = false ∧
    (shutdown st).s_filename = "logcoe.log" ∧
    (shutdown st).s_timeFormat = st.s_timeFormat ∧
    (∀ (env : Env) (f : String), (strftime env f).1 ≠ 0 →
      (shutdown (setTimeFormat env st f)).s_timeFormat = f) := by
  obtain ⟨h1, h2, h3, h4, h5, h6, h7⟩ := shutdown_fields st
  refine ⟨h1, h2, h3, h4, h5, h6, h7, fun env f hf => ?_⟩
  rw [(shutdown_fields _).2.2.2.2.2.2]
  simp [setTimeFormat, hf]

/-- Witness for C11 (amended): the pattern `%H:%M:%S` survives `shutdown`. -/
theorem shutdown_resets_all_but_timeFormat_witness :
    (strftime sampleEnv "%H:%M:%S").1 ≠ 0 ∧
    (shutdown (setTimeFormat sampleEnv (sampleState .INFO) "%H:%M:%S")).s_timeFormat
      = "%H:%M:%S" :=
  ⟨by decide,
   (shutdown_resets_all_but_timeFormat (sampleState .INFO)).2.2.2.2.2.2.2 sampleEnv "%H:%M:%S"
    (by decide)⟩

theorem shutdown_fixed (s : LoggerState) (h1 : s.s_logLevel = .NONE)
    (h2 : s.s_useConsole = false) (h3 : s.s_useFile = false)
    (h4 : s.s_fileStream.isOpen = false) (h5 : s.s_consoleStream = none)
    (h6 : s.s_filename = "logcoe.log") : shutdown s = s := by
  obtain ⟨lvl, fn, ⟨o, q, b⟩, cs, uf, uc, tf, streams, disk⟩ := s
  simp only at h1 h2 h3 h4 h5 h6
  subst h1 h2 h3 h4 h5 h6
  simp [shutdown, writeToOutputs, LogLevel.toInt, flush, fileIsOpen]

/-- C12. The function `shutdown` is idempotent: a second `shutdown` returns
the state the first one left, so it changes no console stream and no file. -/
theorem shutdown_idempotent (st : LoggerState) :
    shutdown (shutdown st) = shutdown st ∧
    (shutdown (shutdown st)).streams = (shutdown st).streams ∧
    (shutdown (shutdown st)).disk = (shutdown st).disk ∧
    (∀ id, consoleContent (shutdown (shutdown st)) id = consoleContent (shutdown st) id) ∧
    (∀ p, fileContent (shutdown (shutdown st)) p = fileContent (shutdown st) p) := by
  obtain ⟨h1, h2, h3, h4, h5, h6, _⟩ := shutdown_fields st
  have h := shutdown_fixed (shutdown st) h3 h1 h2 h5 h4 h6
  refine ⟨h, ?_, ?_, fun id => ?_, fun p => ?_⟩ <;> rw [h]

theorem step_log_dropped (env : Env) (st : LoggerState) (op : Op)
    (hop : op.isLog = true) (h : st.s_logLevel = .NONE) : step env st op = st := by
  cases op <;> simp [Op.isLog, Op.logArgs] at hop <;>
    simp [step, debug, info, warning, error, log] <;>
    exact writeToOutputs_drop st _ _ _ (by rw [h]; decide)

theorem run_logs_dropped (st : LoggerState) (calls : List (Env × Op))
    (hlog : ∀ c ∈ calls, c.2.isLog = true) (h : st.s_logLevel = .NONE) :
    run st calls = st := by
  induction calls generalizing st with
  | nil => rfl
  | cons c rest ih =>
      obtain ⟨env, op⟩ := c
      have hop : op.isLog = true := hlog (env, op) (List.mem_cons_self _ _)
      simp only [run]
      rw [step_log_dropped env st op hop h]
      exact ih st (fun c hc => hlog c (List.mem_cons_of_mem _ hc)) h

/-- C13. After `shutdown`, any sequence of `debug`, `info`, `warning` and
`error` calls is dropped: the state stays the one `shutdown` left, so every
console stream and every file keeps its content and the file stream stays
closed. -/
theorem log_after_shutdown_dropped (st : LoggerState) (calls : List (Env × Op))
    (hlog : ∀ c ∈ calls, c.2.isLog = true) :
    run (shutdown st) calls = shutdown st ∧
    (∀ id, consoleContent (run (shutdown st) calls) id = consoleContent (shutdown st) id) ∧
    (∀ p, fileContent (run (shutdown st) calls) p = fileContent (shutdown st) p) ∧
    fileIsOpen (run (shutdown st) calls) = false := by
  have h := run_logs_dropped (shutdown st) calls hlog (shutdown_fields st).2.2.1
  refine ⟨h, fun id => ?_, fun p => ?_, ?_⟩
  · rw [h]
  · rw [h]
  · rw [h]
    exact (shutdown_fields st).2.2.2.2.1

/-- Witness for C13: an `info` and an `error` call after `shutdown` leave the
console stream with the shutdown notice only. -/
theorem log_after_shutdown_dropped_witness :
    (∀ c ∈ [(sampleEnv, Op.info "late" "" true), (sampleEnv, Op.error "later" "net" false)],
      c.2.isLog = true) ∧
    consoleContent (run (shutdown (sampleState .DEBUG))
      [(sampleEnv, Op.info "late" "" true), (sampleEnv, Op.error "later" "net" false)]) 1
      = "Logger shutting down\n" :=
  ⟨by simp [Op.isLog, Op.logArgs],
   ((log_after_shutdown_dropped (sampleState .DEBUG)
      [(sampleEnv, Op.info "late" "" true), (sampleEnv, Op.error "later" "net" false)]
      (by simp [Op.isLog, Op.logArgs])).2.1 1).trans (by decide)⟩

/-! ## Redirecting and disabling sinks -/

theorem setConsoleOutput_content (st : LoggerState) (X j : Nat) :
    consoleContent (setConsoleOutput st X) j = consoleContent st j := by
  obtain ⟨lvl, fn, ⟨o, q, b⟩, cs, uf, uc, tf, streams, disk⟩ := st
  cases uc <;> cases cs <;>
    simp [setConsoleOutput, consoleFlush, onStream, consoleContent, OStream.content,
      OStream.flush]
  split_ifs with h
  · subst h
    simp
  · rfl

theorem formatMessage_info_plain (env : Env) (st : LoggerState) (m : String) :
    formatMessage env st .INFO m ""
      = "[" ++ (strftime env st.s_timeFormat).2 ++ "] [INFO]: " ++ m := by
  have e : ∀ x : String, "] [" ++ ("INFO" ++ ("]" ++ (": " ++ x))) = "] [INFO]: " ++ x :=
    fun x => by
      simp only [← String.append_assoc]
      rfl
  rw [formatMessage_eq]
  simp only [if_true, getLogLevelAsString, String.append_assoc, String.empty_append, e]

/-- C14. After `setConsoleOutput X` and then `info m` with no source tag, at
a threshold of `DEBUG` or `INFO`, stream `X` holds what it held before plus
the line `[ts] [INFO]: m`, and every other stream, the previous console
target among them, holds what it held before. -/
theorem info_after_setConsoleOutput (env : Env) (st : LoggerState) (X : Nat) (m : String)
    (fl : Bool) (ht : st.s_logLevel.toInt ≤ LogLevel.INFO.toInt) :
    consoleContent (info env (setConsoleOutput st X) m "" fl) X
      = consoleContent st X
        ++ ("[" ++ (strftime env st.s_timeFormat).2 ++ "] [INFO]: " ++ m ++ "\n") ∧
    (∀ P, P ≠ X →
      consoleContent (info env (setConsoleOutput st X) m "" fl) P
        = consoleContent (setConsoleOutput st X) P ∧
      consoleContent (info env (setConsoleOutput st X) m "" fl) P = consoleContent st P) := by
  have hlev : (setConsoleOutput st X).s_logLevel = st.s_logLevel := by
    simp [setConsoleOutput, apply_ite LoggerState.s_logLevel]
  have htf : (setConsoleOutput st X).s_timeFormat = st.s_timeFormat := by
    simp [setConsoleOutput, apply_ite LoggerState.s_timeFormat]
  have hact : ConsoleActive (setConsoleOutput st X) X := ⟨rfl, rfl⟩
  have hn : ¬ LogLevel.INFO.toInt < (setConsoleOutput st X).s_logLevel.toInt := by
    rw [hlev]
    omega
  constructor
  · have := writeToOutputs_console_active (setConsoleOutput st X)
      (formatMessage env (setConsoleOutput st X) .INFO m "") .INFO fl X hn hact
    rw [setConsoleOutput_content, formatMessage_info_plain, htf] at this
    simp only [info, log]
    rw [formatMessage_info_plain, htf]
    exact this
  · intro P hP
    have hoff : ¬ ConsoleActive (setConsoleOutput st X) P := by
      rintro ⟨_, h2⟩
      exact hP (Option.some.inj h2).symm
    have := writeToOutputs_console_other (setConsoleOutput st X)
      (formatMessage env (setConsoleOutput st X) .INFO m "") .INFO fl P hoff
    simp only [info, log]
    exact ⟨this, this.trans (setConsoleOutput_content st X P)⟩

/-- Witness for C14: the console is moved from stream `1` to stream `2`. -/
theorem info_after_setConsoleOutput_witness :
    (sampleState .INFO).s_logLevel.toInt ≤ LogLevel.INFO.toInt ∧
    (sampleState .INFO).s_consoleStream = some 1 ∧
    consoleContent (info sampleEnv (setConsoleOutput (sampleState .INFO) 2) "hello" "" true) 2
      = "[2025-01-01_00-00-00] [INFO]: hello\n" ∧
    consoleContent (info sampleEnv (setConsoleOutput (sampleState .INFO) 2) "hello" "" true) 1
      = "" :=
  ⟨by decide, rfl,
   ((info_after_setConsoleOutput sampleEnv (sampleState .INFO) 2 "hello" true
      (by decide)).1).trans (by decide),
   (((info_after_setConsoleOutput sampleEnv (sampleState .INFO) 2 "hello" true
      (by decide)).2 1 (by decide)).2).trans (by decide)⟩

theorem step_log_eq (env : Env) (st : LoggerState) (op : Op) (hop : op.isLog = true) :
    ∃ m level fl, step env st op = writeToOutputs st m level fl := by
  cases op <;> simp [Op.isLog, Op.logArgs] at hop <;>
    exact ⟨_, _, _, rfl⟩

theorem run_logs_file_off (st : LoggerState) (calls : List (Env × Op))
    (hlog : ∀ c ∈ calls, c.2.isLog = true) (h : st.s_useFile = false) :
    ∀ p, fileContent (run st calls) p = fileContent st p := by
  induction calls generalizing st with
  | nil => exact fun _ => rfl
  | cons c rest ih =>
      obtain ⟨env, op⟩ := c
      obtain ⟨m, level, fl, e⟩ := step_log_eq env st op (hlog (env, op) (List.mem_cons_self _ _))
      intro p
      simp only [run]
      rw [e, ih _ (fun c hc => hlog c (List.mem_cons_of_mem _ hc)) (by simpa using h)]
      exact writeToOutputs_file_other st m level fl p (fun ha => by simp [ha.1] at h)

theorem run_logs_console_off (st : LoggerState) (calls : List (Env × Op))
    (hlog : ∀ c ∈ calls, c.2.isLog = true) (h : st.s_useConsole = false) :
    ∀ id, consoleContent (run st calls) id = consoleContent st id := by
  induction calls generalizing st with
  | nil => exact fun _ => rfl
  | cons c rest ih =>
      obtain ⟨env, op⟩ := c
      obtain ⟨m, level, fl, e⟩ := step_log_eq env st op (hlog (env, op) (List.mem_cons_self _ _))
      intro id
      simp only [run]
      rw [e, ih _ (fun c hc => hlog c (List.mem_cons_of_mem _ hc)) (by simpa using h)]
      exact writeToOutputs_console_other st m level fl id (fun ha => by simp [ha.1] at h)

theorem disableFileOutput_content (st : LoggerState) (p : String) :
    fileContent (disableFileOutput st) p = fileContent st p := by
  obtain ⟨lvl, fn, ⟨o, q, b⟩, cs, uf, uc, tf, streams, disk⟩ := st
  rcases eq_or_ne q p with rfl | hq
  · cases o <;> cases uf <;> cases hd : disk q <;>
      simp [disableFileOutput, fileIsOpen, fileFlush, fileClose, fileContent, Disk.append, hd]
  · cases o <;> cases uf <;> cases hd : disk p <;>
      simp [disableFileOutput, fileIsOpen, fileFlush, fileClose, fileContent, Disk.append, hd, hq,
        hq.symm]

theorem disableConsoleOutput_content (st : LoggerState) (id : Nat) :
    consoleContent (disableConsoleOutput st) id = consoleContent st id := by
  obtain ⟨lvl, fn, ⟨o, q, b⟩, cs, uf, uc, tf, streams, disk⟩ := st
  cases uc <;> cases cs <;>
    simp [disableConsoleOutput, consoleFlush, onStream, consoleContent, OStream.content,
      OStream.flush]
  split_ifs with h
  · subst h
    simp
  · rfl

/-- C15. A disabled sink receives nothing: after `disableFileOutput` any
sequence of logging calls leaves every file, the one that was open among
them, with the content it had; after `disableConsoleOutput` any sequence of
logging calls leaves every stream with the content it had.  Disabling itself
loses no character already written. -/
theorem disabled_sink_receives_nothing (st : LoggerState) (calls : List (Env × Op))
    (hlog : ∀ c ∈ calls, c.2.isLog = true) :
    (∀ p, fileContent (run (disableFileOutput st) calls) p
        = fileContent (disableFileOutput st) p ∧
      fileContent (disableFileOutput st) p = fileContent st p) ∧
    (∀ id, consoleContent (run (disableConsoleOutput st) calls) id
        = consoleContent (disableConsoleOutput st) id ∧
      consoleContent (disableConsoleOutput st) id = consoleContent st id) := by
  refine ⟨fun p => ⟨?_, disableFileOutput_content st p⟩,
    fun id => ⟨?_, disableConsoleOutput_content st id⟩⟩
  · exact run_logs_file_off _ calls hlog (by simp [disableFileOutput]) p
  · exact run_logs_console_off _ calls hlog (by simp [disableConsoleOutput]) id

/-- Witness for C15: an `error` call after `disableConsoleOutput` leaves
stream `1` empty. -/
theorem disabled_sink_receives_nothing_witness :
    (∀ c ∈ [(sampleEnv, Op.error "lost" "" true)], c.2.isLog = true) ∧
    consoleContent (run (disableConsoleOutput (sampleState .DEBUG))
      [(sampleEnv, Op.error "lost" "" true)]) 1 = "" :=
  ⟨by simp [Op.isLog, Op.logArgs],
   (((disabled_sink_receives_nothing (sampleState .DEBUG) [(sampleEnv, Op.error "lost" "" true)]
      (by simp [Op.isLog, Op.logArgs])).2 1).1).trans (by decide)⟩

/-! ## Initialisation -/

theorem fileClose_of_closed (st : LoggerState) (h : fileIsOpen st = false) : fileClose st = st := by
  simp only [fileIsOpen] at h
  simp [fileClose, h]

theorem initialise_stages (env : Env) (st : LoggerState) (level : LogLevel)
    (enableConsole enableFile : Bool) (filename : String) :
    initialise env st level enableConsole enableFile filename
      = writeToOutputs
          (if enableFile = true ∧ ¬ filename = "" then
            (if fileIsOpen (fileOpen env
                (fileClose (configured env st level enableConsole enableFile filename))
                (resolvedName env st filename)) = true
              then fileOpen env
                (fileClose (configured env st level enableConsole enableFile filename))
                (resolvedName env st filename)
              else
                { writeToOutputs (fileOpen env
                    (fileClose (configured env st level enableConsole enableFile filename))
                    (resolvedName env st filename))
                    ("ERROR: Failed to open log file: " ++ resolvedName env st filename)
                    .INFO true with s_useFile := false })
           else configured env st level enableConsole enableFile filename)
          ("Logger initialized with level: " ++ getLogLevelAsString level) .INFO true := by
  unfold initialise
  lift_lets
  intro s1 s2 s3 s4 s5 s6 c o w s7
  have h6 : s6 = configured env st level enableConsole enableFile filename := by
    obtain ⟨lvl, fn, fs, cs, uf, uc, tf, streams, disk⟩ := st
    simp only [s6, s5, s4, s3, s2, s1, configured, resolvedName, getCurrentTimestamp]
    cases enableConsole <;> cases cs <;> by_cases h1 : filename = fn <;>
      by_cases h2 : filename = "logcoe.log" <;> simp [h1, h2]
    all_goals simp_all
  have hc : c = fileClose (configured env st level enableConsole enableFile filename) := by
    rw [← h6]
    by_cases h : fileIsOpen s6 = true
    · simp only [c, h, if_true]
    · simp only [c, h]
      exact (fileClose_of_closed s6 (by simpa using h)).symm
  have hcn : c.s_filename = resolvedName env st filename := by
    rw [hc, fileClose_s_filename]
    rfl
  have ho : o = fileOpen env (fileClose (configured env st level enableConsole enableFile
      filename)) (resolvedName env st filename) := by
    simp only [o]
    rw [hcn, hc]
  have hon : o.s_filename = resolvedName env st filename := by
    simp only [o, fileOpen_s_filename]
    exact hcn
  have h6u : s6.s_useFile = enableFile := by
    rw [h6]
    rfl
  have hl : s7.s_logLevel = level := by
    simp only [s7, w, apply_ite LoggerState.s_logLevel, writeToOutputs_s_logLevel, o,
      fileOpen_s_logLevel, hc, fileClose_s_logLevel, h6, ite_self]
    rfl
  rw [hl]
  congr 1
  simp only [s7, h6u, w, hon]
  rw [← ho, ← h6]
  cases enableFile <;> by_cases hf : filename = "" <;> by_cases hop : fileIsOpen o = true <;>
    simp [hf, hop]
theorem opened_isOpen (env : Env) (s : LoggerState) (n : String) :
    fileIsOpen (fileOpen env (fileClose s) n) = env.canOpen n := by
  simp [fileIsOpen, fileOpen_isOpen]

theorem opened_console (env : Env) (s : LoggerState) (n : String) (id : Nat) :
    consoleContent (fileOpen env (fileClose s) n) id = consoleContent s id := by
  simp [consoleContent]

theorem opened_file (env : Env) (s : LoggerState) (n : String) (h : env.canOpen n = true) :
    (fileOpen env (fileClose s) n).s_fileStream = { isOpen := true, path := n, pending := "" } ∧
    (fileOpen env (fileClose s) n).disk n = some "" := by
  have hc : (fileClose s).s_fileStream.isOpen = false := fileClose_isOpen s
  simp [fileOpen, hc, h, Disk.truncate]

theorem opened_failed (env : Env) (s : LoggerState) (n : String) (h : env.canOpen n = false) :
    fileOpen env (fileClose s) n = fileClose s := by
  have hc : (fileClose s).s_fileStream.isOpen = false := fileClose_isOpen s
  simp [fileOpen, hc, h]

/-- The state on which `initialize` makes its last call of `writeToOutputs`. -/
theorem initialise_last_write (env : Env) (st : LoggerState) (level : LogLevel)
    (enableConsole enableFile : Bool) (filename : String) :
    ∃ pre : LoggerState,
      initialise env st level enableConsole enableFile filename
        = writeToOutputs pre ("Logger initialized with level: " ++ getLogLevelAsString level)
            .INFO true ∧
      pre.s_logLevel = level ∧
      pre.s_timeFormat = st.s_timeFormat ∧
      pre.s_filename = resolvedName env st filename ∧
      (∀ id, ConsoleActive pre id →
        consoleContent pre id = consoleContent st id ++
          (if enableFile = true ∧ ¬ filename = "" ∧
              env.canOpen (resolvedName env st filename) = false ∧
              level.toInt ≤ LogLevel.INFO.toInt
            then "ERROR: Failed to open log file: " ++ resolvedName env st filename ++ "\n"
            else "")) ∧
      (∀ id, ¬ ConsoleActive pre id → consoleContent pre id = consoleContent st id) ∧
      (enableFile = true ∧ ¬ filename = "" →
        (env.canOpen (resolvedName env st filename) = true →
          pre.s_useFile = true ∧
          pre.s_fileStream
            = { isOpen := true, path := resolvedName env st filename, pending := "" } ∧
          pre.disk (resolvedName env st filename) = some "") ∧
        (env.canOpen (resolvedName env st filename) = false → pre.s_useFile = false)) ∧
      (¬ (enableFile = true ∧ ¬ filename = "") →
        pre.s_useFile = enableFile ∧ pre.s_fileStream = st.s_fileStream ∧
        pre.disk = st.disk) := by
  refine ⟨_, initialise_stages env st level enableConsole enableFile filename, ?_⟩
  by_cases hatt : enableFile = true ∧ ¬ filename = ""
  · obtain ⟨he, hf⟩ := hatt
    subst he
    simp only [hf, and_self, if_true, not_false_eq_true, true_and, not_true_eq_false,
      false_implies, implies_true, and_true, opened_isOpen]
    cases hcan : env.canOpen (resolvedName env st filename)
    · simp only [Bool.false_eq_true, if_false, false_implies, true_and, implies_true, and_true]
      rw [opened_failed env _ _ hcan]
      have hcl : (fileClose (configured env st level enableConsole true filename)).s_logLevel
          = level := by
        simp [configured]
      refine ⟨by simp [configured], by simp [configured], by simp [configured],
        fun id ha => ?_, fun id ha => ?_⟩
      · have hact : ConsoleActive (fileClose (configured env st level enableConsole
            true filename)) id := by
          obtain ⟨a1, a2⟩ := ha
          exact ⟨by simpa using a1, by simpa using a2⟩
        show consoleContent (writeToOutputs (fileClose (configured env st level enableConsole
            true filename)) _ .INFO true) id = _
        by_cases hl : level.toInt ≤ LogLevel.INFO.toInt
        · simp only [hl, if_true]
          rw [writeToOutputs_console_active _ _ .INFO true id (by rw [hcl]; omega) hact,
            fileClose_console]
          rfl
        · simp only [hl, if_false, String.append_empty]
          rw [writeToOutputs_drop _ _ .INFO true (by rw [hcl]; omega), fileClose_console]
          rfl
      · have hoff : ¬ ConsoleActive (fileClose (configured env st level enableConsole
            true filename)) id := by
          rintro ⟨a1, a2⟩
          exact ha ⟨by simpa using a1, by simpa using a2⟩
        show consoleContent (writeToOutputs (fileClose (configured env st level enableConsole
            true filename)) _ .INFO true) id = _
        rw [writeToOutputs_console_other _ _ .INFO true id hoff, fileClose_console]
        rfl
    · simp only [if_true, Bool.true_eq_false, false_and, and_false, if_false,
        String.append_empty, false_implies, and_true, true_implies]
      obtain ⟨f1, f2⟩ := opened_file env (configured env st level enableConsole true
        filename) _ hcan
      refine ⟨by simp [configured], by simp [configured], by simp [configured],
        fun id _ => ?_, fun id _ => ?_, ?_, f1, f2⟩
      · rw [opened_console]
        rfl
      · rw [opened_console]
        rfl
      · simp [configured]
  · have hcond : ¬ (enableFile = true ∧ ¬ filename = "" ∧
        env.canOpen (resolvedName env st filename) = false ∧
        level.toInt ≤ LogLevel.INFO.toInt) := fun h => hatt ⟨h.1, h.2.1⟩
    simp only [hatt, hcond, if_false, String.append_empty, false_implies, not_false_eq_true,
      true_implies, true_and]
    exact ⟨rfl, rfl, rfl, fun _ _ => rfl, fun _ _ => rfl, rfl, rfl, rfl⟩
theorem fileContent_congr (a b : LoggerState) (p : String)
    (h1 : a.s_fileStream = b.s_fileStream) (h2 : a.disk = b.disk) :
    fileContent a p = fileContent b p := by
  simp only [fileContent, h1, h2]

theorem fileContent_fresh (a : LoggerState) (n : String)
    (h1 : a.s_fileStream = { isOpen := true, path := n, pending := "" })
    (h2 : a.disk n = some "") : fileContent a n = some "" := by
  simp [fileContent, h1, h2]

/-- C16 (as stated) fails: `initialize` with level `WARNING` leaves the active
console stream without the initialisation message. -/
theorem initialise_silent_at_warning :
    ConsoleActive (initialise sampleEnv (sampleState .INFO) .WARNING true false "logcoe.log") 1 ∧
    consoleContent (initialise sampleEnv (sampleState .INFO) .WARNING true false "logcoe.log") 1
      = "" ∧
    consoleContent (initialise sampleEnv (sampleState .INFO) .WARNING true false "logcoe.log") 1
      ≠ consoleContent (sampleState .INFO) 1 ++ "Logger initialized with level: WARNING\n" := by
  decide

/-- C16 (amended). The message `Logger initialized with level: <LEVEL>` is
written at severity `INFO` against the new threshold.  For level `DEBUG` or
`INFO` it is the last line written to every sink that is active after
`initialize`: the active console stream holds its former content, then the
file-open failure line if the open failed, then the message; the active file
holds the message alone when it was opened by this call, and its former
content followed by the message otherwise.  For a level above `INFO` no
console stream changes. -/
theorem initialise_announces_at_info (env : Env) (st : LoggerState)
    (enableConsole enableFile : Bool) (filename : String) :
    (∀ c ∈ [(LogLevel.DEBUG, "DEBUG"), (LogLevel.INFO, "INFO")],
      (∀ id, ConsoleActive (initialise env st c.1 enableConsole enableFile filename) id →
        consoleContent (initialise env st c.1 enableConsole enableFile filename) id
          = consoleContent st id
            ++ (if enableFile = true ∧ ¬ filename = "" ∧
                  env.canOpen (resolvedName env st filename) = false
                then "ERROR: Failed to open log file: " ++ resolvedName env st filename ++ "\n"
                else "")
            ++ ("Logger initialized with level: " ++ c.2 ++ "\n")) ∧
      (∀ p, FileActive (initialise env st c.1 enableConsole enableFile filename) p →
        fileContent (initialise env st c.1 enableConsole enableFile filename) p
          = (if enableFile = true ∧ ¬ filename = ""
              then some ("Logger initialized with level: " ++ c.2 ++ "\n")
              else (fileContent st p).map fun old =>
                old ++ ("Logger initialized with level: " ++ c.2 ++ "\n")))) ∧
    (∀ level : LogLevel, LogLevel.INFO.toInt < level.toInt →
      ∀ id, consoleContent (initialise env st level enableConsole enableFile filename) id
        = consoleContent st id) := by
  constructor
  · intro c hc
    have hlev : c.1.toInt ≤ LogLevel.INFO.toInt ∧ getLogLevelAsString c.1 = c.2 := by
      simp only [List.mem_cons, List.mem_singleton, List.not_mem_nil, or_false] at hc
      rcases hc with rfl | rfl <;> exact ⟨by decide, rfl⟩
    obtain ⟨hle, hname⟩ := hlev
    obtain ⟨pre, e, p1, _, _, p3, _, p5, p6⟩ :=
      initialise_last_write env st c.1 enableConsole enableFile filename
    have hn : ¬ LogLevel.INFO.toInt < pre.s_logLevel.toInt := by
      rw [p1]
      omega
    rw [e, hname]
    constructor
    · intro id ha
      have ha' : ConsoleActive pre id := by
        obtain ⟨a1, a2⟩ := ha
        exact ⟨by simpa using a1, by simpa using a2⟩
      rw [writeToOutputs_console_active pre _ .INFO true id hn ha', p3 id ha']
      simp only [hle, and_true]
    · intro p ha
      have ha' : FileActive pre p := by
        obtain ⟨a1, a2, a3⟩ := ha
        exact ⟨by simpa using a1, by simpa using a2, by simpa using a3⟩
      rw [writeToOutputs_file_active pre _ .INFO true p hn ha']
      by_cases hatt : enableFile = true ∧ ¬ filename = ""
      · simp only [hatt, and_self, if_true]
        cases hcan : env.canOpen (resolvedName env st filename)
        · have := (p5 hatt).2 hcan
          rw [ha'.1] at this
          exact absurd this (by decide)
        · obtain ⟨_, f1, f2⟩ := (p5 hatt).1 hcan
          have hp : resolvedName env st filename = p := by
            have := ha'.2.2
            rw [f1] at this
            exact this
          subst hp
          rw [fileContent_fresh pre _ f1 f2]
          simp
      · simp only [hatt, if_false]
        obtain ⟨_, f1, f2⟩ := p6 hatt
        rw [fileContent_congr pre st p f1 f2]
  · intro level hl id
    obtain ⟨pre, e, p1, _, _, p3, p4, _, _⟩ :=
      initialise_last_write env st level enableConsole enableFile filename
    rw [e, writeToOutputs_drop pre _ .INFO true (by rw [p1]; exact hl)]
    by_cases ha : ConsoleActive pre id
    · rw [p3 id ha]
      have : ¬ level.toInt ≤ LogLevel.INFO.toInt := by omega
      simp [this]
    · exact p4 id ha

/-- Witness for C16 (amended): `initialize` at level `DEBUG` with the console
on stream `1`. -/
theorem initialise_announces_at_info_witness :
    ConsoleActive (initialise sampleEnv (sampleState .INFO) .DEBUG true false "logcoe.log") 1 ∧
    consoleContent (initialise sampleEnv (sampleState .INFO) .DEBUG true false "logcoe.log") 1
      = "Logger initialized with level: DEBUG\n" :=
  ⟨by decide,
   (((initialise_announces_at_info sampleEnv (sampleState .INFO) true false "logcoe.log").1
      (.DEBUG, "DEBUG") (by simp)).1 1 (by decide)).trans (by decide)⟩

/-- C17 (as stated) fails: from the initial state, where every path can be
opened, `initialize` with `enableFile = true` and an empty file name leaves
`s_filename` empty and opens no file, whereas the name `logcoe.log` is
resolved and opened. -/
theorem initialise_empty_name_not_resolved :
    (initialise openEnv (initialState emptyStreams emptyDisk) .INFO true true "").s_filename
      = "" ∧
    (initialise openEnv (initialState emptyStreams emptyDisk) .INFO true true "").s_filename
      ≠ "logcoe_2025-01-01_00-00-00.log" ∧
    fileIsOpen (initialise openEnv (initialState emptyStreams emptyDisk) .INFO true true "")
      = false ∧
    (initialise openEnv (initialState emptyStreams emptyDisk) .INFO true true "").disk
      "logcoe_2025-01-01_00-00-00.log" = none ∧
    (initialise openEnv (initialState emptyStreams emptyDisk) .INFO true true
      "logcoe.log").s_filename = "logcoe_2025-01-01_00-00-00.log" ∧
    fileIsOpen (initialise openEnv (initialState emptyStreams emptyDisk) .INFO true true
      "logcoe.log") = true := by
  decide

/-- C17 (amended). With `enableFile = true` and the file name `logcoe.log`,
`initialize` resolves the name to `logcoe_<timestamp>.log` and opens it: when
the open succeeds `s_useFile` is set, the stream is open on the synthesized
path and `s_filename` is that path.  With an empty file name nothing is
resolved or opened: `s_filename` becomes empty and the stream keeps the open
state and the path it had. -/
theorem initialise_resolves_sentinel_only (env : Env) (st : LoggerState) (level : LogLevel)
    (enableConsole : Bool) :
    (env.canOpen ("logcoe_" ++ (strftime env st.s_timeFormat).2 ++ ".log") = true →
      (initialise env st level enableConsole true "logcoe.log").s_useFile = true ∧
      fileIsOpen (initialise env st level enableConsole true "logcoe.log") = true ∧
      (initialise env st level enableConsole true "logcoe.log").s_fileStream.path
        = "logcoe_" ++ (strftime env st.s_timeFormat).2 ++ ".log" ∧
      (initialise env st level enableConsole true "logcoe.log").s_filename
        = "logcoe_" ++ (strftime env st.s_timeFormat).2 ++ ".log") ∧
    (initialise env st level enableConsole true "").s_filename = "" ∧
    (initialise env st level enableConsole true "").s_fileStream.isOpen
      = st.s_fileStream.isOpen ∧
    (initialise env st level enableConsole true "").s_fileStream.path
      = st.s_fileStream.path := by
  constructor
  · intro hcan
    obtain ⟨pre, e, _, _, p2, _, _, p5, _⟩ :=
      initialise_last_write env st level enableConsole true "logcoe.log"
    have hr : resolvedName env st "logcoe.log"
        = "logcoe_" ++ (strftime env st.s_timeFormat).2 ++ ".log" := by
      simp [resolvedName]
    rw [hr] at p5 p2
    obtain ⟨f0, f1, _⟩ := (p5 ⟨rfl, by decide⟩).1 hcan
    rw [e]
    simp only [fileIsOpen, writeToOutputs_s_useFile, writeToOutputs_file_isOpen,
      writeToOutputs_file_path, writeToOutputs_s_filename, f0, f1, p2, and_self]
  · obtain ⟨pre, e, _, _, p2, _, _, _, p6⟩ :=
      initialise_last_write env st level enableConsole true ""
    have hr : resolvedName env st "" = "" := by
      simp [resolvedName]
    rw [hr] at p2
    obtain ⟨_, f1, _⟩ := p6 (by simp)
    rw [e]
    simp only [writeToOutputs_s_filename, writeToOutputs_file_isOpen, writeToOutputs_file_path,
      p2, f1, and_self]

/-- Witness for C17 (amended): the default name is resolved and opened. -/
theorem initialise_resolves_sentinel_only_witness :
    openEnv.canOpen ("logcoe_" ++ (strftime openEnv (sampleState .INFO).s_timeFormat).2 ++ ".log")
      = true ∧
    (initialise openEnv (sampleState .INFO) .INFO true true "logcoe.log").s_filename
      = "logcoe_2025-01-01_00-00-00.log" :=
  ⟨by decide,
   (((initialise_resolves_sentinel_only openEnv (sampleState .INFO) .INFO true).1
      (by decide)).2.2.2).trans (by decide)⟩

/-- C20. With `enableConsole = true`, `initialize` keeps a console pointer
that is set and points a null one at `std::cout`: a stream installed by
`setConsoleOutput` stays, and after `shutdown` or `disableConsoleOutput` the
console is `std::cout`. -/
theorem initialise_reuses_console (env : Env) (st : LoggerState) (level : LogLevel)
    (enableFile : Bool) (filename : String) :
    (initialise env st level true enableFile filename).s_useConsole = true ∧
    (∀ X, st.s_consoleStream = some X →
      (initialise env st level true enableFile filename).s_consoleStream = some X) ∧
    (st.s_consoleStream = none →
      (initialise env st level true enableFile filename).s_consoleStream = some cout) ∧
    (∀ X, (initialise env (setConsoleOutput st X) level true enableFile filename).s_consoleStream
      = some X) ∧
    (initialise env (shutdown st) level true enableFile filename).s_consoleStream = some cout ∧
    (initialise env (disableConsoleOutput st) level true enableFile filename).s_consoleStream
      = some cout := by
  refine ⟨(initialise_console env st level true enableFile filename).1, fun X h => ?_,
    fun h => ?_, fun X => ?_, ?_, ?_⟩
  · rw [(initialise_console env st level true enableFile filename).2]
    simp [h]
  · rw [(initialise_console env st level true enableFile filename).2]
    simp [h]
  · rw [(initialise_console env _ level true enableFile filename).2]
    simp [setConsoleOutput]
  · rw [(initialise_console env _ level true enableFile filename).2]
    simp [shutdown]
  · rw [(initialise_console env _ level true enableFile filename).2]
    simp [disableConsoleOutput]

/-- Witness for C20: the console on stream `1` is kept by `initialize`. -/
theorem initialise_reuses_console_witness :
    (sampleState .INFO).s_consoleStream = some 1 ∧
    (initialise sampleEnv (sampleState .INFO) .DEBUG true false "logcoe.log").s_consoleStream
      = some 1 :=
  ⟨rfl,
   (initialise_reuses_console sampleEnv (sampleState .INFO) .DEBUG false "logcoe.log").2.1 1 rfl⟩

theorem formatMessage_plain (env : Env) (st : LoggerState) (level : LogLevel) (m : String) :
    formatMessage env st level m ""
      = "[" ++ (strftime env st.s_timeFormat).2 ++ "] [" ++ getLogLevelAsString level ++ "]: "
        ++ m := by
  have e : ∀ x : String, "]" ++ (": " ++ x) = "]: " ++ x := fun x => by
    rw [← String.append_assoc]
    rfl
  rw [formatMessage_eq]
  simp only [if_true, String.append_assoc, String.empty_append, e]

theorem writeToOutputs_flushed (st : LoggerState) (m : String) (level : LogLevel) (fl : Bool)
    (h : ¬ level.toInt < st.s_logLevel.toInt) (hu : st.s_useFile = true) :
    (writeToOutputs st m level fl).s_fileStream.pending
      = (if st.s_fileStream.isOpen = true then "" else st.s_fileStream.pending) := by
  obtain ⟨lvl, fn, ⟨o, q, b⟩, cs, uf, uc, tf, streams, disk⟩ := st
  simp only at h hu
  subst hu
  cases uc <;> cases cs <;> cases o <;> cases fl <;>
    simp [writeToOutputs, h, consoleWriteLine, consoleFlush, onStream, fileWriteLine, filePut,
      fileFlush]

theorem disk_of_flushed (st : LoggerState) (p : String) (h : st.s_fileStream.pending = "") :
    st.disk p = fileContent st p := by
  simp only [fileContent, h, String.append_empty, ite_self]
  cases st.disk p <;> rfl

theorem log_plain_to_file (env : Env) (S : LoggerState) (level : LogLevel) (m : String)
    (fl : Bool) (p c0 : String) (hact : FileActive S p) (hc : fileContent S p = some c0)
    (hpass : S.s_logLevel.toInt ≤ level.toInt) :
    fileContent (log env S level m "" fl) p
      = some (c0 ++ ("[" ++ (strftime env S.s_timeFormat).2 ++ "] ["
          ++ getLogLevelAsString level ++ "]: " ++ m ++ "\n")) ∧
    (log env S level m "" fl).disk p
      = some (c0 ++ ("[" ++ (strftime env S.s_timeFormat).2 ++ "] ["
          ++ getLogLevelAsString level ++ "]: " ++ m ++ "\n")) := by
  have hn : ¬ level.toInt < S.s_logLevel.toInt := by omega
  have h2c : fileContent (log env S level m "" fl) p = _ :=
    writeToOutputs_file_active S (formatMessage env S level m "") level fl p hn hact
  rw [hc, formatMessage_plain] at h2c
  have h2p : (log env S level m "" fl).s_fileStream.pending = _ :=
    writeToOutputs_flushed S (formatMessage env S level m "") level fl hn hact.1
  rw [hact.2.1] at h2p
  exact ⟨h2c, (disk_of_flushed _ p h2p).trans h2c⟩

theorem initialise_then_log (env1 env2 : Env) (st : LoggerState) (L level : LogLevel)
    (enableConsole : Bool) (f m : String) (fl : Bool)
    (hf1 : ¬ f = "") (hf2 : ¬ f = "logcoe.log") (hopen : env1.canOpen f = true)
    (hs : L.toInt ≤ level.toInt) :
    getLogLevel (initialise env1 st L enableConsole true f) = L ∧
    getLogLevel (log env2 (initialise env1 st L enableConsole true f) level m "" fl) = L ∧
    fileContent (log env2 (initialise env1 st L enableConsole true f) level m "" fl) f
      = some ((if L.toInt ≤ LogLevel.INFO.toInt
            then "Logger initialized with level: " ++ getLogLevelAsString L ++ "\n" else "")
          ++ ("[" ++ (strftime env2 st.s_timeFormat).2 ++ "] [" ++ getLogLevelAsString level
            ++ "]: " ++ m ++ "\n")) ∧
    (log env2 (initialise env1 st L enableConsole true f) level m "" fl).disk f
      = some ((if L.toInt ≤ LogLevel.INFO.toInt
            then "Logger initialized with level: " ++ getLogLevelAsString L ++ "\n" else "")
          ++ ("[" ++ (strftime env2 st.s_timeFormat).2 ++ "] [" ++ getLogLevelAsString level
            ++ "]: " ++ m ++ "\n")) := by
  obtain ⟨pre, e, p1, ptf, _, _, _, p5, _⟩ := initialise_last_write env1 st L enableConsole true f
  have hr : resolvedName env1 st f = f := by
    simp [resolvedName, hf2]
  rw [hr] at p5
  obtain ⟨f0, f1, f2⟩ := (p5 ⟨rfl, hf1⟩).1 hopen
  have hpre : FileActive pre f := ⟨f0, by rw [f1], by rw [f1]⟩
  -- the state after `initialize`
  have h1lev : (initialise env1 st L enableConsole true f).s_logLevel = L := by
    rw [e, writeToOutputs_s_logLevel, p1]
  have h1tf : (initialise env1 st L enableConsole true f).s_timeFormat = st.s_timeFormat := by
    rw [e, writeToOutputs_s_timeFormat, ptf]
  have h1act : FileActive (initialise env1 st L enableConsole true f) f := by
    rw [e]
    exact ⟨by simpa using hpre.1, by simpa using hpre.2.1, by simpa using hpre.2.2⟩
  have h1c : fileContent (initialise env1 st L enableConsole true f) f
      = some (if L.toInt ≤ LogLevel.INFO.toInt
          then "Logger initialized with level: " ++ getLogLevelAsString L ++ "\n" else "") := by
    rw [e]
    by_cases hl : L.toInt ≤ LogLevel.INFO.toInt
    · rw [writeToOutputs_file_active pre _ .INFO true f (by rw [p1]; omega) hpre,
        fileContent_fresh pre f f1 f2]
      simp [hl]
    · rw [writeToOutputs_drop pre _ .INFO true (by rw [p1]; omega),
        fileContent_fresh pre f f1 f2]
      simp [hl]
  have h := log_plain_to_file env2 (initialise env1 st L enableConsole true f) level m fl f _
    h1act h1c (by rw [h1lev]; exact hs)
  rw [h1tf] at h
  refine ⟨h1lev, ?_, h.1, h.2⟩
  show (writeToOutputs _ _ _ _).s_logLevel = L
  rw [writeToOutputs_s_logLevel]
  exact h1lev

/-- C18. After `initialize(L, enableConsole, true, f)` with a non-empty name
`f` other than `logcoe.log` that can be opened, and one logging call of
severity at least `L` with message `m` and no source tag, `getLogLevel`
returns `L` and the file `f` exists and holds the line `[ts] [LEVEL]: m`,
preceded only by the initialisation message when `L` is `DEBUG` or `INFO`. -/
theorem initialise_then_log_reaches_file :
    ∀ c ∈ ([(.DEBUG, "DEBUG", debug), (.INFO, "INFO", info), (.WARNING, "WARNING", warning),
        (.ERROR, "ERROR", error)] :
        List (LogLevel × String × (Env → LoggerState → String → String → Bool → LoggerState))),
    ∀ (env1 env2 : Env) (st : LoggerState) (L : LogLevel) (enableConsole : Bool)
      (f m : String) (fl : Bool),
      ¬ f = "" → ¬ f = "logcoe.log" → env1.canOpen f = true → L.toInt ≤ c.1.toInt →
      getLogLevel (c.2.2 env2 (initialise env1 st L enableConsole true f) m "" fl) = L ∧
      (c.2.2 env2 (initialise env1 st L enableConsole true f) m "" fl).disk f
        = some ((if L.toInt ≤ LogLevel.INFO.toInt
              then "Logger initialized with level: " ++ getLogLevelAsString L ++ "\n" else "")
            ++ ("[" ++ (strftime env2 st.s_timeFormat).2 ++ "] [" ++ c.2.1 ++ "]: " ++ m
              ++ "\n")) := by
  intro c hc env1 env2 st L enableConsole f m fl hf1 hf2 hopen hs
  simp only [List.mem_cons, List.mem_singleton, List.not_mem_nil, or_false] at hc
  rcases hc with rfl | rfl | rfl | rfl
  · have h := initialise_then_log env1 env2 st L .DEBUG enableConsole f m fl hf1 hf2 hopen hs
    exact ⟨h.2.1, h.2.2.2⟩
  · have h := initialise_then_log env1 env2 st L .INFO enableConsole f m fl hf1 hf2 hopen hs
    exact ⟨h.2.1, h.2.2.2⟩
  · have h := initialise_then_log env1 env2 st L .WARNING enableConsole f m fl hf1 hf2 hopen hs
    exact ⟨h.2.1, h.2.2.2⟩
  · have h := initialise_then_log env1 env2 st L .ERROR enableConsole f m fl hf1 hf2 hopen hs
    exact ⟨h.2.1, h.2.2.2⟩

/-- Witness for C18: `initialize(DEBUG, true, true, "test_logfile.log")` and
then `debug("Test debug message")`. -/
theorem initialise_then_log_reaches_file_witness :
    ¬ "test_logfile.log" = "" ∧ ¬ "test_logfile.log" = "logcoe.log" ∧
    openEnv.canOpen "test_logfile.log" = true ∧
    LogLevel.DEBUG.toInt ≤ LogLevel.DEBUG.toInt ∧
    getLogLevel (debug openEnv (initialise openEnv (sampleState .INFO) .DEBUG true true
      "test_logfile.log") "Test debug message" "" true) = .DEBUG ∧
    (debug openEnv (initialise openEnv (sampleState .INFO) .DEBUG true true
      "test_logfile.log") "Test debug message" "" true).disk "test_logfile.log"
      = some ("Logger initialized with level: DEBUG\n"
          ++ "[2025-01-01_00-00-00] [DEBUG]: Test debug message\n") :=
  ⟨by decide, by decide, by decide, by decide,
   (initialise_then_log_reaches_file (.DEBUG, "DEBUG", debug) (by simp) openEnv openEnv
      (sampleState .INFO) .DEBUG true "test_logfile.log" "Test debug message" true
      (by decide) (by decide) (by decide) (by decide)).1,
   ((initialise_then_log_reaches_file (.DEBUG, "DEBUG", debug) (by simp) openEnv openEnv
      (sampleState .INFO) .DEBUG true "test_logfile.log" "Test debug message" true
      (by decide) (by decide) (by decide) (by decide)).2).trans (by decide)⟩

/-! ## One record per line -/

/-- C19 (as stated) fails: a passing `warning` call whose message contains a
newline adds two lines to the active log file. -/
theorem multiline_message_adds_two_lines :
    FileActive fileState "app.log" ∧
    fileState.s_logLevel.toInt ≤ LogLevel.WARNING.toInt ∧
    (fileContent fileState "app.log").map lineCount = some 0 ∧
    fileContent (warning openEnv fileState "first\nsecond" "" true) "app.log"
      = some "[2025-01-01_00-00-00] [WARNING]: first\nsecond\n" ∧
    (fileContent (warning openEnv fileState "first\nsecond" "" true) "app.log").map lineCount
      = some 2 := by
  decide

theorem lineCount_append (a b : String) : lineCount (a ++ b) = lineCount a + lineCount b := by
  simp [lineCount, String.data_append, List.count_append]

theorem lineCount_levelName (level : LogLevel) : lineCount (getLogLevelAsString level) = 0 := by
  cases level <;> decide

theorem recordOf_lineCount (env : Env) (st : LoggerState) (op : Op)
    (h : oneLine env st op = true) : lineCount (recordOf env st op) = 1 := by
  unfold oneLine at h
  unfold recordOf
  cases hl : op.logArgs with
  | none => simp [hl] at h
  | some a =>
      obtain ⟨level, message, source⟩ := a
      simp only [hl, Bool.and_eq_true, beq_iff_eq] at h
      obtain ⟨⟨hm, hs⟩, ht⟩ := h
      have e1 : lineCount "[" = 0 := by decide
      have e2 : lineCount "] [" = 0 := by decide
      have e3 : lineCount "]" = 0 := by decide
      have e4 : lineCount " [" = 0 := by decide
      have e5 : lineCount ": " = 0 := by decide
      have e6 : lineCount "\n" = 1 := by decide
      have e7 : lineCount "" = 0 := by decide
      simp only [formatMessage_eq]
      by_cases hsrc : source = "" <;>
        simp [hsrc, lineCount_append, lineCount_levelName, hm, hs, ht, e1, e2, e3, e4, e5, e6,
          e7]

theorem recordOf_congr (env : Env) (a b : LoggerState) (op : Op)
    (h : a.s_timeFormat = b.s_timeFormat) : recordOf env a op = recordOf env b op := by
  unfold recordOf
  cases op.logArgs with
  | none => rfl
  | some x => simp only [formatMessage, getCurrentTimestamp, h]

theorem recordsOf_congr (a b : LoggerState) (calls : List (Env × Op))
    (h : a.s_timeFormat = b.s_timeFormat) : recordsOf a calls = recordsOf b calls := by
  induction calls with
  | nil => rfl
  | cons c rest ih =>
      obtain ⟨env, op⟩ := c
      simp only [recordsOf, ih, recordOf_congr env a b op h]

theorem oneLine_congr (env : Env) (a b : LoggerState) (op : Op)
    (h : a.s_timeFormat = b.s_timeFormat) : oneLine env a op = oneLine env b op := by
  unfold oneLine
  rw [h]

theorem step_passing (env : Env) (st : LoggerState) (op : Op) (p c0 : String)
    (hp : op.passes st.s_logLevel = true) (hact : FileActive st p)
    (hc : fileContent st p = some c0) :
    (step env st op).s_logLevel = st.s_logLevel ∧
    (step env st op).s_timeFormat = st.s_timeFormat ∧
    FileActive (step env st op) p ∧
    fileContent (step env st op) p = some (c0 ++ recordOf env st op) := by
  have key : ∀ (level : LogLevel) (message source : String) (fl : Bool),
      st.s_logLevel.toInt ≤ level.toInt →
      (log env st level message source fl).s_logLevel = st.s_logLevel ∧
      (log env st level message source fl).s_timeFormat = st.s_timeFormat ∧
      FileActive (log env st level message source fl) p ∧
      fileContent (log env st level message source fl) p
        = some (c0 ++ (formatMessage env st level message source ++ "\n")) := by
    intro level message source fl hle
    have hn : ¬ level.toInt < st.s_logLevel.toInt := by omega
    refine ⟨by simp [log], by simp [log], ?_, ?_⟩
    · exact ⟨by simpa [log] using hact.1, by simpa [log] using hact.2.1,
        by simpa [log] using hact.2.2⟩
    · have := writeToOutputs_file_active st (formatMessage env st level message source)
        level fl p hn hact
      rw [hc] at this
      exact this
  cases op <;> simp [Op.passes, Op.logArgs] at hp <;>
    simpa [step, debug, info, warning, error, recordOf, Op.logArgs] using key _ _ _ _ hp

theorem run_passing (st : LoggerState) (calls : List (Env × Op)) (p c0 : String)
    (hp : ∀ c ∈ calls, c.2.passes st.s_logLevel = true) (hact : FileActive st p)
    (hc : fileContent st p = some c0) :
    fileContent (run st calls) p = some (c0 ++ recordsOf st calls) := by
  induction calls generalizing st c0 with
  | nil => simpa [run, recordsOf] using hc
  | cons c rest ih =>
      obtain ⟨env, op⟩ := c
      obtain ⟨s1, s2, s3, s4⟩ := step_passing env st op p c0
        (hp (env, op) (List.mem_cons_self _ _)) hact hc
      simp only [run, recordsOf]
      rw [ih (step env st op) (c0 ++ recordOf env st op)
        (fun c hc' => by rw [s1]; exact hp c (List.mem_cons_of_mem _ hc')) s3 s4,
        recordsOf_congr _ st rest s2, String.append_assoc]

theorem recordsOf_lineCount (st : LoggerState) (calls : List (Env × Op))
    (h : ∀ c ∈ calls, oneLine c.1 st c.2 = true) :
    lineCount (recordsOf st calls) = calls.length := by
  induction calls with
  | nil => rfl
  | cons c rest ih =>
      obtain ⟨env, op⟩ := c
      simp only [recordsOf, lineCount_append, List.length_cons]
      rw [recordOf_lineCount env st op (h (env, op) (List.mem_cons_self _ _)),
        ih (fun c hc => h c (List.mem_cons_of_mem _ hc))]
      omega

/-- C19 (amended). With the file sink active, a sequence of logging calls that
all pass the filter appends the records of the calls to the file, in call
order and with nothing in between.  When the message, the source tag and the
timestamp of every call are free of newline characters, each call adds exactly
one line, so `k` calls add `k` lines. -/
theorem passing_calls_append_one_line_each (st : LoggerState) (calls : List (Env × Op))
    (p c0 : String) (hact : FileActive st p) (hc : fileContent st p = some c0)
    (hp : ∀ c ∈ calls, c.2.passes st.s_logLevel = true) :
    fileContent (run st calls) p = some (c0 ++ recordsOf st calls) ∧
    ((∀ c ∈ calls, oneLine c.1 st c.2 = true) →
      (∀ c ∈ calls, lineCount (recordOf c.1 st c.2) = 1) ∧
      lineCount (c0 ++ recordsOf st calls) = lineCount c0 + calls.length) := by
  refine ⟨run_passing st calls p c0 hp hact hc, fun h1 => ⟨fun c hc' => ?_, ?_⟩⟩
  · exact recordOf_lineCount c.1 st c.2 (h1 c hc')
  · rw [lineCount_append, recordsOf_lineCount st calls h1]

/-- Witness for C19 (amended): a `warning` and an `error` call add two lines,
in that order. -/
theorem passing_calls_append_one_line_each_witness :
    FileActive fileState "app.log" ∧ fileContent fileState "app.log" = some "" ∧
    (∀ c ∈ [(openEnv, Op.warning "low disk" "" true), (openEnv, Op.error "disk full" "fs" false)],
      c.2.passes fileState.s_logLevel = true) ∧
    fileContent (run fileState
      [(openEnv, Op.warning "low disk" "" true), (openEnv, Op.error "disk full" "fs" false)])
      "app.log"
      = some ("[2025-01-01_00-00-00] [WARNING]: low disk\n"
          ++ "[2025-01-01_00-00-00] [ERROR] [fs]: disk full\n") ∧
    lineCount ("" ++ recordsOf fileState
      [(openEnv, Op.warning "low disk" "" true), (openEnv, Op.error "disk full" "fs" false)])
      = lineCount "" + 2 :=
  ⟨by decide, by decide, by decide,
   ((passing_calls_append_one_line_each fileState
      [(openEnv, Op.warning "low disk" "" true), (openEnv, Op.error "disk full" "fs" false)]
      "app.log" "" (by decide) (by decide) (by decide)).1).trans (by decide),
   ((passing_calls_append_one_line_each fileState
      [(openEnv, Op.warning "low disk" "" true), (openEnv, Op.error "disk full" "fs" false)]
      "app.log" "" (by decide) (by decide) (by decide)).2 (by decide)).2⟩

/-! ## The flush flag -/

theorem Disk.append_empty (d : Disk) (p : String) : d.append p "" = d := by
  funext q
  simp only [Disk.append]
  split_ifs with h
  · cases d q <;> simp
  · rfl

theorem writeToOutputs_flush_irrelevant (st : LoggerState) (m : String) (level : LogLevel) :
    writeToOutputs st m level false = writeToOutputs st m level true := by
  obtain ⟨lvl, fn, ⟨o, q, b⟩, cs, uf, uc, tf, streams, disk⟩ := st
  by_cases h : level.toInt < lvl.toInt <;> cases uf <;> cases uc <;> cases cs <;> cases o <;>
    simp [writeToOutputs, h, consoleWriteLine, consoleFlush, onStream, fileWriteLine, filePut,
      fileFlush, OStream.put, OStream.endl, OStream.flush, Disk.append_empty]
  all_goals
    funext j
    split_ifs <;> simp

/-- C23. The flush flag of `debug`, `info`, `warning` and `error` does not
change the outcome: the call with `flush = false` yields the same state as the
call with `flush = true`, in particular the same delivered characters in every
stream and the same content of every file on disk, because `std::endl` has
already flushed the line. -/
theorem flush_flag_irrelevant :
    ∀ call ∈ logCalls, ∀ (env : Env) (st : LoggerState) (message source : String),
      call.2 env st message source false = call.2 env st message source true ∧
      (∀ id, ((call.2 env st message source false).streams id).delivered
        = ((call.2 env st message source true).streams id).delivered) ∧
      (∀ p, (call.2 env st message source false).disk p
        = (call.2 env st message source true).disk p) := by
  intro call hc env st message source
  have key : call.2 env st message source false = call.2 env st message source true := by
    simp only [logCalls, List.mem_cons, List.mem_singleton, List.not_mem_nil, or_false] at hc
    rcases hc with rfl | rfl | rfl | rfl <;>
      exact writeToOutputs_flush_irrelevant st _ _
  exact ⟨key, fun id => by rw [key], fun p => by rw [key]⟩

/-- Witness for C23: an unflushed `error` call on the sample state delivers
its line to stream `1` all the same. -/
theorem flush_flag_irrelevant_witness :
    (LogLevel.ERROR, error) ∈ logCalls ∧
    ((error sampleEnv (sampleState .INFO) "disk full" "" false).streams 1).delivered
      = "[2025-01-01_00-00-00] [ERROR]: disk full\n" ∧
    ((error sampleEnv (sampleState .INFO) "disk full" "" false).streams 1).pending = "" :=
  ⟨by simp [logCalls],
   ((flush_flag_irrelevant (.ERROR, error) (by simp [logCalls]) sampleEnv (sampleState .INFO)
      "disk full" "").2.1 1).trans (by decide),
   by decide⟩

/-! ## The logger's own messages -/

theorem writeToOutputs_info_console (st : LoggerState) (m : String) (id : Nat)
    (ha : ConsoleActive st id) :
    consoleContent (writeToOutputs st m .INFO true) id
      = (if st.s_logLevel.toInt ≤ LogLevel.INFO.toInt then consoleContent st id ++ (m ++ "\n")
         else consoleContent st id) := by
  by_cases h : st.s_logLevel.toInt ≤ LogLevel.INFO.toInt
  · rw [if_pos h]
    exact writeToOutputs_console_active st m .INFO true id (by omega) ha
  · rw [if_neg h, writeToOutputs_drop st m .INFO true (by omega)]

theorem writeToOutputs_info_file (st : LoggerState) (m : String) (p : String)
    (ha : FileActive st p) :
    fileContent (writeToOutputs st m .INFO true) p
      = (if st.s_logLevel.toInt ≤ LogLevel.INFO.toInt
         then (fileContent st p).map fun old => old ++ (m ++ "\n")
         else fileContent st p) := by
  by_cases h : st.s_logLevel.toInt ≤ LogLevel.INFO.toInt
  · rw [if_pos h]
    exact writeToOutputs_file_active st m .INFO true p (by omega) ha
  · rw [if_neg h, writeToOutputs_drop st m .INFO true (by omega)]

theorem flush_console (st : LoggerState) (id : Nat) :
    consoleContent (flush st) id = consoleContent st id := by
  obtain ⟨lvl, fn, ⟨o, q, b⟩, cs, uf, uc, tf, streams, disk⟩ := st
  cases uf <;> cases uc <;> cases cs <;> cases o <;>
    simp [flush, consoleFlush, onStream, fileFlush, fileIsOpen, consoleContent, OStream.content,
      OStream.flush]
  all_goals
    split_ifs with h
    · subst h
      simp
    · rfl

theorem fileFlush_fileContent (st : LoggerState) (p : String) :
    fileContent (fileFlush st) p = fileContent st p := by
  obtain ⟨lvl, fn, ⟨o, q, b⟩, cs, uf, uc, tf, streams, disk⟩ := st
  rcases eq_or_ne q p with rfl | hq
  · cases o <;> cases hd : disk q <;> simp [fileFlush, fileContent, Disk.append, hd]
  · cases o <;> cases hd : disk p <;> simp [fileFlush, fileContent, Disk.append, hd, hq, hq.symm]

theorem fileClose_fileContent (st : LoggerState) (p : String) :
    fileContent (fileClose st) p = fileContent st p := by
  obtain ⟨lvl, fn, ⟨o, q, b⟩, cs, uf, uc, tf, streams, disk⟩ := st
  rcases eq_or_ne q p with rfl | hq
  · cases o <;> cases hd : disk q <;> simp [fileClose, fileFlush, fileContent, Disk.append, hd]
  · cases o <;> cases hd : disk p <;>
      simp [fileClose, fileFlush, fileContent, Disk.append, hd, hq, hq.symm]

theorem flush_fileContent (st : LoggerState) (p : String) :
    fileContent (flush st) p = fileContent st p := by
  obtain ⟨lvl, fn, ⟨o, q, b⟩, cs, uf, uc, tf, streams, disk⟩ := st
  rcases eq_or_ne q p with rfl | hq
  · cases uf <;> cases uc <;> cases cs <;> cases o <;> cases hd : disk q <;>
      simp [flush, consoleFlush, onStream, fileFlush, fileIsOpen, fileContent, Disk.append, hd]
  · cases uf <;> cases uc <;> cases cs <;> cases o <;> cases hd : disk p <;>
      simp [flush, consoleFlush, onStream, fileFlush, fileIsOpen, fileContent, Disk.append, hd,
        hq, hq.symm]

theorem shutdown_console (st : LoggerState) (id : Nat) :
    consoleContent (shutdown st) id
      = consoleContent (writeToOutputs st "Logger shutting down" .INFO true) id := by
  have e : consoleContent (shutdown st) id
      = consoleContent (if fileIsOpen (flush (writeToOutputs st "Logger shutting down" .INFO
          true)) = true
        then fileClose (flush (writeToOutputs st "Logger shutting down" .INFO true))
        else flush (writeToOutputs st "Logger shutting down" .INFO true)) id := rfl
  rw [e]
  split_ifs
  · rw [fileClose_console, flush_console]
  · rw [flush_console]

theorem shutdown_file (st : LoggerState) (p : String) :
    fileContent (shutdown st) p
      = fileContent (writeToOutputs st "Logger shutting down" .INFO true) p := by
  have e : fileContent (shutdown st) p
      = fileContent (if fileIsOpen (flush (writeToOutputs st "Logger shutting down" .INFO
          true)) = true
        then fileClose (flush (writeToOutputs st "Logger shutting down" .INFO true))
        else flush (writeToOutputs st "Logger shutting down" .INFO true)) p := rfl
  rw [e]
  split_ifs
  · rw [fileClose_fileContent, flush_fileContent]
  · rw [flush_fileContent]

theorem setFileOutput_failure_console (env : Env) (st : LoggerState) (filename : String)
    (id : Nat) (hc : ConsoleActive st id)
    (hopen : env.canOpen (if filename = ""
      then "logcoe_" ++ (strftime env st.s_timeFormat).2 ++ ".log" else filename) = false) :
    consoleContent (setFileOutput env st filename).2 id
      = (if st.s_logLevel.toInt ≤ LogLevel.INFO.toInt
         then consoleContent st id ++ ("ERROR: Failed to open log file: "
          ++ (if filename = "" then "logcoe_" ++ (strftime env st.s_timeFormat).2 ++ ".log"
              else filename) ++ "\n")
         else consoleContent st id) := by
  obtain ⟨lvl, fn, ⟨o, q, b⟩, cs, uf, uc, tf, streams, disk⟩ := st
  obtain ⟨h1, h2⟩ := hc
  simp only at h1 h2 hopen
  subst h1 h2
  by_cases hl : lvl.toInt ≤ LogLevel.INFO.toInt
  · have hn : ¬ LogLevel.INFO.toInt < lvl.toInt := by omega
    by_cases hf : filename = "" <;>
      simp only [hf, if_true, if_false, String.append_assoc] at hopen <;>
      cases o <;> cases uf <;>
      simp [setFileOutput, fileIsOpen, fileFlush, fileClose, fileOpen, getCurrentTimestamp, hf,
        hopen, hn, hl, writeToOutputs, consoleWriteLine, consoleFlush, onStream, fileWriteLine,
        filePut, consoleContent, OStream.content, OStream.put, OStream.endl, OStream.flush,
        String.append_assoc]
  · have hn : LogLevel.INFO.toInt < lvl.toInt := by omega
    by_cases hf : filename = "" <;>
      simp only [hf, if_true, if_false, String.append_assoc] at hopen <;>
      cases o <;> cases uf <;>
      simp [setFileOutput, fileIsOpen, fileFlush, fileClose, fileOpen, getCurrentTimestamp, hf,
        hopen, hn, hl, writeToOutputs, consoleWriteLine, consoleFlush, onStream, fileWriteLine,
        filePut, consoleContent, OStream.content, OStream.put, OStream.endl, OStream.flush,
        String.append_assoc]
/-- C22. The logger's own messages are written by `writeToOutputs` at its
default severity `INFO` and as raw text.  For each of them (the shutdown
notice, the rejected time format, the failed open in `setFileOutput`, and in
`initialize` the failed open and the initialisation message) an active sink
gains exactly the bare message and a newline when the threshold in force is
`DEBUG` or `INFO`, and nothing when the threshold is higher. -/
theorem diagnostics_written_at_info :
    (∀ t : LogLevel, t.toInt ≤ LogLevel.INFO.toInt ↔ t = .DEBUG ∨ t = .INFO) ∧
    (∀ (st : LoggerState) (id : Nat), ConsoleActive st id →
      consoleContent (shutdown st) id
        = (if st.s_logLevel.toInt ≤ LogLevel.INFO.toInt
           then consoleContent st id ++ ("Logger shutting down" ++ "\n")
           else consoleContent st id)) ∧
    (∀ (st : LoggerState) (p : String), FileActive st p →
      fileContent (shutdown st) p
        = (if st.s_logLevel.toInt ≤ LogLevel.INFO.toInt
           then (fileContent st p).map fun old => old ++ ("Logger shutting down" ++ "\n")
           else fileContent st p)) ∧
    (∀ (env : Env) (st : LoggerState) (f : String) (id : Nat),
      (strftime env f).1 = 0 → ConsoleActive st id →
      consoleContent (setTimeFormat env st f) id
        = (if st.s_logLevel.toInt ≤ LogLevel.INFO.toInt
           then consoleContent st id ++ ("ERROR: Invalid time format provided: \"" ++ f
            ++ "\". Keeping the current format" ++ "\n")
           else consoleContent st id)) ∧
    (∀ (env : Env) (st : LoggerState) (f p : String),
      (strftime env f).1 = 0 → FileActive st p →
      fileContent (setTimeFormat env st f) p
        = (if st.s_logLevel.toInt ≤ LogLevel.INFO.toInt
           then (fileContent st p).map fun old => old
            ++ ("ERROR: Invalid time format provided: \"" ++ f
              ++ "\". Keeping the current format" ++ "\n")
           else fileContent st p)) ∧
    (∀ (env : Env) (st : LoggerState) (filename : String) (id : Nat),
      env.canOpen (if filename = ""
        then "logcoe_" ++ (strftime env st.s_timeFormat).2 ++ ".log" else filename) = false →
      ConsoleActive st id →
      consoleContent (setFileOutput env st filename).2 id
        = (if st.s_logLevel.toInt ≤ LogLevel.INFO.toInt
           then consoleContent st id ++ ("ERROR: Failed to open log file: "
            ++ (if filename = "" then "logcoe_" ++ (strftime env st.s_timeFormat).2 ++ ".log"
                else filename) ++ "\n")
           else consoleContent st id)) ∧
    (∀ (env : Env) (st : LoggerState) (level : LogLevel) (enableConsole enableFile : Bool)
        (filename : String) (id : Nat),
      ConsoleActive (initialise env st level enableConsole enableFile filename) id →
      consoleContent (initialise env st level enableConsole enableFile filename) id
        = consoleContent st id
          ++ (if enableFile = true ∧ ¬ filename = "" ∧
                env.canOpen (resolvedName env st filename) = false ∧
                level.toInt ≤ LogLevel.INFO.toInt
              then "ERROR: Failed to open log file: " ++ resolvedName env st filename ++ "\n"
              else "")
          ++ (if level.toInt ≤ LogLevel.INFO.toInt
              then "Logger initialized with level: " ++ getLogLevelAsString level ++ "\n"
              else "")) ∧
    (∀ (env : Env) (st : LoggerState) (level : LogLevel) (enableConsole enableFile : Bool)
        (filename p : String),
      FileActive (initialise env st level enableConsole enableFile filename) p →
      fileContent (initialise env st level enableConsole enableFile filename) p
        = (if enableFile = true ∧ ¬ filename = ""
           then some (if level.toInt ≤ LogLevel.INFO.toInt
              then "Logger initialized with level: " ++ getLogLevelAsString level ++ "\n"
              else "")
           else if level.toInt ≤ LogLevel.INFO.toInt
              then (fileContent st p).map fun old =>
                old ++ ("Logger initialized with level: " ++ getLogLevelAsString level ++ "\n")
              else fileContent st p)) := by
  refine ⟨fun t => ?_, fun st id ha => ?_, fun st p ha => ?_, fun env st f id h0 ha => ?_,
    fun env st f p h0 ha => ?_, fun env st filename id hopen ha => ?_,
    fun env st level enableConsole enableFile filename id ha => ?_,
    fun env st level enableConsole enableFile filename p ha => ?_⟩
  · cases t <;> decide
  · rw [shutdown_console, writeToOutputs_info_console st _ id ha]
  · rw [shutdown_file, writeToOutputs_info_file st _ p ha]
  · simp only [setTimeFormat, h0, if_true]
    exact writeToOutputs_info_console st _ id ha
  · simp only [setTimeFormat, h0, if_true]
    exact writeToOutputs_info_file st _ p ha
  · exact setFileOutput_failure_console env st filename id ha hopen
  · obtain ⟨pre, e, p1, _, _, p3, _, _, _⟩ :=
      initialise_last_write env st level enableConsole enableFile filename
    rw [e] at ha ⊢
    have ha' : ConsoleActive pre id := by
      obtain ⟨a1, a2⟩ := ha
      exact ⟨by simpa using a1, by simpa using a2⟩
    rw [writeToOutputs_info_console pre _ id ha', p1, p3 id ha']
    by_cases hl : level.toInt ≤ LogLevel.INFO.toInt <;> simp [hl]
  · obtain ⟨pre, e, p1, _, _, _, _, p5, p6⟩ :=
      initialise_last_write env st level enableConsole enableFile filename
    rw [e] at ha ⊢
    have ha' : FileActive pre p := by
      obtain ⟨a1, a2, a3⟩ := ha
      exact ⟨by simpa using a1, by simpa using a2, by simpa using a3⟩
    rw [writeToOutputs_info_file pre _ p ha', p1]
    by_cases hatt : enableFile = true ∧ ¬ filename = ""
    · rw [if_pos hatt]
      cases hcan : env.canOpen (resolvedName env st filename)
      · have := (p5 hatt).2 hcan
        rw [ha'.1] at this
        exact absurd this (by decide)
      · obtain ⟨_, f1, f2⟩ := (p5 hatt).1 hcan
        have hp : resolvedName env st filename = p := by
          have := ha'.2.2
          rw [f1] at this
          exact this
        subst hp
        rw [fileContent_fresh pre _ f1 f2]
        by_cases hl : level.toInt ≤ LogLevel.INFO.toInt <;> simp [hl]
    · rw [if_neg hatt]
      obtain ⟨_, f1, f2⟩ := p6 hatt
      rw [fileContent_congr pre st p f1 f2]

/-- Witness for C22: the shutdown notice reaches stream `1` at threshold
`INFO` as the bare text. -/
theorem diagnostics_written_at_info_witness :
    ConsoleActive (sampleState .INFO) 1 ∧
    consoleContent (shutdown (sampleState .INFO)) 1 = "Logger shutting down\n" ∧
    ConsoleActive (sampleState .ERROR) 1 ∧
    consoleContent (shutdown (sampleState .ERROR)) 1 = "" :=
  ⟨by decide,
   (diagnostics_written_at_info.2.1 (sampleState .INFO) 1 (by decide)).trans (by decide),
   by decide,
   (diagnostics_written_at_info.2.1 (sampleState .ERROR) 1 (by decide)).trans (by decide)⟩

end Logcoe
